import Mathlib

/-!
Formal model of the PIM repository: the SQLite access layer (database.py,
class NoteDatabase) and the session facade (main.py, class NoteDatabaseSystem).

Modelling conventions:
* each SQL table is a list of row structures; AUTOINCREMENT primary keys are
  modelled by explicit counters (next_user_id, ...), SQLite starts them at 1;
* CURRENT_TIMESTAMP is an explicit parameter (now : Nat) to every operation
  that writes a timestamp; timestamps are Nat, larger = later;
* bcrypt is out of scope per the spec (an opaque one way function with a
  verify operation): a hash is modelled as an opaque wrapper of the hashed
  string, verify succeeds exactly on the matching password;
* uuid4 session tokens are modelled as an explicit token parameter to login;
* the Python session dict is an association list: insertion prepends (the
  first match shadows older entries, i.e. dict overwrite), deletion filters;
* SQL LIKE is given its standard semantics (likeMatch below): percent matches
  any sequence, underscore matches one character, letters match ASCII case
  insensitively;
* SQLite runs without PRAGMA foreign_keys, so foreign keys and ON DELETE
  CASCADE are not enforced at runtime: delete_note removes only the notes
  row, junction rows stay behind (faithful to the running code);
* the UNIQUE(user_id, name, parent_id) folder constraint does not fire when
  parent_id is NULL (SQL NULLs are pairwise distinct in a unique index);
* Python truthiness tests on integers (if not user_id, if note_id) are
  modelled literally: None and 0 are both falsy.
-/

/-- Opaque password verifier (bcrypt hash abstracted per the spec). -/
structure PwHash where
  hashed : String
deriving DecidableEq

def hashPassword (password : String) : PwHash := ⟨password⟩

def verifyPassword (password : String) (h : PwHash) : Bool :=
  decide (h = ⟨password⟩)

/-- Row of the users table. -/
structure UserRow where
  id : Nat
  username : String
  password_hash : PwHash
  created_at : Nat
deriving DecidableEq

/-- Row of the notes table. -/
structure NoteRow where
  id : Nat
  user_id : Nat
  title : String
  content : String
  created_at : Nat
  modified_at : Nat
  reminder_date : Option String
deriving DecidableEq

/-- Row of the tags table. -/
structure TagRow where
  id : Nat
  name : String
deriving DecidableEq

/-- Row of the note_tags junction table. -/
structure NoteTagRow where
  note_id : Nat
  tag_id : Nat
deriving DecidableEq

/-- Row of the todos table. -/
structure TodoRow where
  id : Nat
  user_id : Nat
  title : String
  description : String
  due_date : Option String
  priority : String
  completed : Bool
  created_at : Nat
  note_id : Option Nat
deriving DecidableEq

/-- Row of the todo_tags junction table. -/
structure TodoTagRow where
  todo_id : Nat
  tag_id : Nat
deriving DecidableEq

/-- Row of the folders table. -/
structure FolderRow where
  id : Nat
  user_id : Nat
  name : String
  parent_id : Option Nat
  created_at : Nat
deriving DecidableEq

/-- Row of the note_folders junction table. -/
structure NoteFolderRow where
  note_id : Nat
  folder_id : Nat
deriving DecidableEq

/-- The whole SQLite database state created by _init_database. -/
structure DB where
  users : List UserRow := []
  notes : List NoteRow := []
  tags : List TagRow := []
  note_tags : List NoteTagRow := []
  todos : List TodoRow := []
  todo_tags : List TodoTagRow := []
  folders : List FolderRow := []
  note_folders : List NoteFolderRow := []
  next_user_id : Nat := 1
  next_note_id : Nat := 1
  next_tag_id : Nat := 1
  next_todo_id : Nat := 1
  next_folder_id : Nat := 1
deriving DecidableEq

/-- Python str.strip over the character list of a string. -/
def pyStrip (s : String) : String :=
  ⟨((s.data.dropWhile Char.isWhitespace).reverse.dropWhile Char.isWhitespace).reverse⟩

/-- ASCII lower casing of one character (SQLite LIKE folds only ASCII). -/
def lowerChar (c : Char) : Char :=
  if 65 ≤ c.toNat ∧ c.toNat ≤ 90 then Char.ofNat (c.toNat + 32) else c

/-- Standard SQL LIKE pattern semantics: percent matches any sequence,
underscore matches exactly one character, any other character matches ASCII
case insensitively. Structural recursion on the pattern. -/
def likeMatch : List Char → List Char → Bool
  | [], s => s.isEmpty
  | p :: ps, s =>
    if p = '%' then s.tails.any (fun suffix => likeMatch ps suffix)
    else
      match s with
      | [] => false
      | c :: cs => (if p = '_' then true else decide (lowerChar p = lowerChar c)) && likeMatch ps cs

/-- SQL LIKE on strings: text LIKE pattern. -/
def sqlLike (pattern text : String) : Bool :=
  likeMatch pattern.data text.data

/-- Insertion step for sorting a list in descending key order
(models ORDER BY key DESC; ties keep scan order). -/
def insertDescBy {α : Type} (key : α → Nat) (x : α) : List α → List α
  | [] => [x]
  | y :: ys => if key y ≤ key x then x :: y :: ys else y :: insertDescBy key x ys

/-- Insertion sort in descending key order (models ORDER BY key DESC). -/
def sortDescBy {α : Type} (key : α → Nat) : List α → List α
  | [] => []
  | x :: xs => insertDescBy key x (sortDescBy key xs)

namespace NoteDatabase

/-- create_user: INSERT INTO users, IntegrityError on duplicate username. -/
def create_user (db : DB) (now : Nat) (username password : String) : Bool × DB :=
  if db.users.any (fun u => decide (u.username = username)) then
    (false, db)
  else
    (true,
      { db with
        users := db.users ++ [{ id := db.next_user_id, username := username,
                                password_hash := hashPassword password, created_at := now }],
        next_user_id := db.next_user_id + 1 })

/-- verify_user: SELECT password_hash WHERE username, then bcrypt check. -/
def verify_user (db : DB) (username password : String) : Bool :=
  match db.users.find? (fun u => decide (u.username = username)) with
  | none => false
  | some u => verifyPassword password u.password_hash

/-- get_user_id: SELECT id FROM users WHERE username. -/
def get_user_id (db : DB) (username : String) : Option Nat :=
  (db.users.find? (fun u => decide (u.username = username))).map (fun u => u.id)

/-- create_note: INSERT INTO notes, IntegrityError when UNIQUE(user_id, title)
is violated, in which case nothing changes and None is returned. -/
def create_note (db : DB) (now : Nat) (user_id : Nat) (title content : String) :
    Option Nat × DB :=
  if db.notes.any (fun n => decide (n.user_id = user_id ∧ n.title = title)) then
    (none, db)
  else
    (some db.next_note_id,
      { db with
        notes := db.notes ++ [{ id := db.next_note_id, user_id := user_id, title := title,
                                content := content, created_at := now, modified_at := now,
                                reminder_date := none }],
        next_note_id := db.next_note_id + 1 })

/-- SELECT t.name FROM tags t JOIN note_tags nt ON t.id = nt.tag_id
WHERE nt.note_id = ? (modelled by scanning note_tags and resolving names). -/
def noteTags (db : DB) (note_id : Nat) : List String :=
  (db.note_tags.filter (fun nt => decide (nt.note_id = note_id))).filterMap
    (fun nt => (db.tags.find? (fun t => decide (t.id = nt.tag_id))).map (fun t => t.name))

/-- Record returned by get_note_by_title. -/
structure NoteView where
  id : Nat
  title : String
  content : String
  created_at : Nat
  modified_at : Nat
  reminder_date : Option String
  tags : List String
deriving DecidableEq

/-- get_note_by_title: fetch the note row scoped by user, then its tags. -/
def get_note_by_title (db : DB) (user_id : Nat) (title : String) : Option NoteView :=
  (db.notes.find? (fun n => decide (n.user_id = user_id ∧ n.title = title))).map
    (fun n =>
      { id := n.id, title := n.title, content := n.content, created_at := n.created_at,
        modified_at := n.modified_at, reminder_date := n.reminder_date,
        tags := noteTags db n.id })

/-- Record returned by get_user_notes (no reminder_date in that SELECT). -/
structure NoteListView where
  id : Nat
  title : String
  content : String
  created_at : Nat
  modified_at : Nat
  tags : List String
deriving DecidableEq

/-- get_user_notes: user scoped rows ORDER BY modified_at DESC LIMIT ?,
each annotated with its tags. -/
def get_user_notes (db : DB) (user_id : Nat) (limit : Nat) : List NoteListView :=
  ((sortDescBy (fun n => n.modified_at)
      (db.notes.filter (fun n => decide (n.user_id = user_id)))).take limit).map
    (fun n =>
      { id := n.id, title := n.title, content := n.content, created_at := n.created_at,
        modified_at := n.modified_at, tags := noteTags db n.id })

/-- update_note_content: UPDATE scoped by user and title, refreshing
modified_at; returns whether a row matched. -/
def update_note_content (db : DB) (now : Nat) (user_id : Nat) (title new_content : String) :
    Bool × DB :=
  (db.notes.any (fun n => decide (n.user_id = user_id ∧ n.title = title)),
    { db with
      notes := db.notes.map (fun n =>
        if n.user_id = user_id ∧ n.title = title then
          { n with content := new_content, modified_at := now }
        else n) })

/-- update_note_title: pre-check that the new title is free for this user,
then UPDATE scoped by user and old title. -/
def update_note_title (db : DB) (now : Nat) (user_id : Nat) (old_title new_title : String) :
    Bool × DB :=
  if db.notes.any (fun n => decide (n.user_id = user_id ∧ n.title = new_title)) then
    (false, db)
  else
    (db.notes.any (fun n => decide (n.user_id = user_id ∧ n.title = old_title)),
      { db with
        notes := db.notes.map (fun n =>
          if n.user_id = user_id ∧ n.title = old_title then
            { n with title := new_title, modified_at := now }
          else n) })

/-- delete_note: DELETE scoped by user and title. Foreign keys are not
enabled at runtime, so junction rows are left behind. -/
def delete_note (db : DB) (user_id : Nat) (title : String) : Bool × DB :=
  (db.notes.any (fun n => decide (n.user_id = user_id ∧ n.title = title)),
    { db with
      notes := db.notes.filter (fun n => !decide (n.user_id = user_id ∧ n.title = title)) })

/-- Record returned by search_user_notes (content included, no tags). -/
structure SearchView where
  id : Nat
  title : String
  content : String
  created_at : Nat
  modified_at : Nat
deriving DecidableEq

/-- search_user_notes: WHERE user_id = ? AND (title LIKE pat OR content LIKE
pat) with pat the query wrapped in percents, ORDER BY modified_at DESC. -/
def search_user_notes (db : DB) (user_id : Nat) (query : String) : List SearchView :=
  let search_pattern := "%" ++ query ++ "%"
  (sortDescBy (fun n => n.modified_at)
      (db.notes.filter (fun n =>
        decide (n.user_id = user_id) &&
          (sqlLike search_pattern n.title || sqlLike search_pattern n.content)))).map
    (fun n =>
      { id := n.id, title := n.title, content := n.content, created_at := n.created_at,
        modified_at := n.modified_at })

/-- INSERT OR IGNORE INTO tags (name): append a fresh row unless present. -/
def ensureTag (db : DB) (name : String) : DB :=
  if db.tags.any (fun t => decide (t.name = name)) then db
  else
    { db with
      tags := db.tags ++ [{ id := db.next_tag_id, name := name }],
      next_tag_id := db.next_tag_id + 1 }

/-- One iteration of the add_note_tags loop: INSERT OR IGNORE the tag,
SELECT its id (None models the unreachable exception path when the SELECT
finds nothing), INSERT OR IGNORE the junction row. -/
def addOneTag (nid : Nat) (db : DB) (name : String) : Option DB :=
  let db1 := ensureTag db name
  (db1.tags.find? (fun t => decide (t.name = name))).map (fun trow =>
    if db1.note_tags.any (fun nt => decide (nt.note_id = nid ∧ nt.tag_id = trow.id)) then db1
    else { db1 with note_tags := db1.note_tags ++ [{ note_id := nid, tag_id := trow.id }] })

/-- add_note_tags: resolve the note scoped by user, loop over the tag names,
then return the complete tag list of the note; on the exception path the
uncommitted transaction is rolled back. -/
def add_note_tags (db : DB) (user_id : Nat) (title : String) (tags : List String) :
    Option (List String) × DB :=
  match db.notes.find? (fun n => decide (n.user_id = user_id ∧ n.title = title)) with
  | none => (none, db)
  | some n =>
    match tags.foldlM (addOneTag n.id) db with
    | none => (none, db)
    | some db2 => (some (noteTags db2 n.id), db2)

/-- Record returned by get_user_stats. -/
structure StatsView where
  total_notes : Nat
  total_tags : Nat
  total_todos : Nat
  recent_title : Option String
  recent_modified : Option Nat
deriving DecidableEq

/-- get_user_stats: note count, distinct tags attached to the user notes,
todo count, and the most recently modified note. -/
def get_user_stats (db : DB) (user_id : Nat) : StatsView :=
  let userNotes := db.notes.filter (fun n => decide (n.user_id = user_id))
  let recent := (sortDescBy (fun n => n.modified_at) userNotes).head?
  { total_notes := userNotes.length,
    total_tags :=
      (db.tags.filter (fun t =>
        db.note_tags.any (fun nt =>
          decide (nt.tag_id = t.id) &&
            db.notes.any (fun n => decide (n.id = nt.note_id ∧ n.user_id = user_id))))).length,
    total_todos := (db.todos.filter (fun t => decide (t.user_id = user_id))).length,
    recent_title := recent.map (fun n => n.title),
    recent_modified := recent.map (fun n => n.modified_at) }

/-- create_todo: resolve the optional linked note (scoped by user, silently
none when absent; Python treats an empty title string as no link), then
INSERT the todo row (never fails: no unique constraint on todos). -/
def create_todo (db : DB) (now : Nat) (user_id : Nat) (title description : String)
    (due_date : Option String) (priority : String) (note_title : Option String) :
    Option Nat × DB :=
  let note_id : Option Nat :=
    match note_title with
    | none => none
    | some nt =>
      if nt = "" then none
      else (db.notes.find? (fun n => decide (n.user_id = user_id ∧ n.title = nt))).map
        (fun n => n.id)
  (some db.next_todo_id,
    { db with
      todos := db.todos ++ [{ id := db.next_todo_id, user_id := user_id, title := title,
                              description := description, due_date := due_date,
                              priority := priority, completed := false, created_at := now,
                              note_id := note_id }],
      next_todo_id := db.next_todo_id + 1 })

/-- SELECT t.name ... JOIN todo_tags for one todo. -/
def todoTags (db : DB) (todo_id : Nat) : List String :=
  (db.todo_tags.filter (fun tt => decide (tt.todo_id = todo_id))).filterMap
    (fun tt => (db.tags.find? (fun t => decide (t.id = tt.tag_id))).map (fun t => t.name))

/-- Record returned by get_user_todos. -/
structure TodoView where
  id : Nat
  title : String
  description : String
  due_date : Option String
  priority : String
  completed : Bool
  created_at : Nat
  note_title : Option String
  tags : List String
deriving DecidableEq

/-- LEFT JOIN notes n ON t.note_id = n.id: the joined note title. -/
def joinedNoteTitle (db : DB) (note_id : Option Nat) : Option String :=
  note_id.bind (fun nid =>
    (db.notes.find? (fun n => decide (n.id = nid))).map (fun n => n.title))

/-- The SQL WHERE clause of get_user_todos (status, priority and linked note
filters; Python treats empty filter strings as falsy, i.e. no filter). -/
def todoRowKeep (db : DB) (user_id : Nat) (status priority linked_to_note : Option String)
    (t : TodoRow) : Bool :=
  decide (t.user_id = user_id) &&
    (match status with
     | some s => if s = "open" then !t.completed else if s = "done" then t.completed else true
     | none => true) &&
    (match priority with
     | some p => if p = "" then true else decide (t.priority = p)
     | none => true) &&
    (match linked_to_note with
     | some ln =>
       if ln = "" then true
       else match joinedNoteTitle db t.note_id with
            | some jt => decide (jt = ln)
            | none => false
     | none => true)

/-- get_user_todos: filtered rows ORDER BY created_at DESC, each annotated
with tags; the tag filter is applied in Python after the query. -/
def get_user_todos (db : DB) (user_id : Nat) (status tag priority linked_to_note : Option String) :
    List TodoView :=
  (sortDescBy (fun t => t.created_at)
      (db.todos.filter (todoRowKeep db user_id status priority linked_to_note))).filterMap
    (fun t =>
      let tags := todoTags db t.id
      let keep : Bool :=
        match tag with
        | none => true
        | some tg => if tg = "" then true else tags.contains tg
      if keep then
        some { id := t.id, title := t.title, description := t.description,
               due_date := t.due_date, priority := t.priority, completed := t.completed,
               created_at := t.created_at, note_title := joinedNoteTitle db t.note_id,
               tags := tags }
      else none)

/-- toggle_todo: read the current completed flag of the row scoped by user
and id, then UPDATE it to its negation. -/
def toggle_todo (db : DB) (user_id todo_id : Nat) : Bool × DB :=
  match db.todos.find? (fun t => decide (t.id = todo_id ∧ t.user_id = user_id)) with
  | none => (false, db)
  | some row =>
    (true,
      { db with
        todos := db.todos.map (fun t =>
          if t.id = todo_id ∧ t.user_id = user_id then { t with completed := !row.completed }
          else t) })

/-- delete_todo: DELETE scoped by user and id. -/
def delete_todo (db : DB) (user_id todo_id : Nat) : Bool × DB :=
  (db.todos.any (fun t => decide (t.id = todo_id ∧ t.user_id = user_id)),
    { db with
      todos := db.todos.filter (fun t => !decide (t.id = todo_id ∧ t.user_id = user_id)) })

/-- One iteration of the add_todo_tags loop (same shape as addOneTag). -/
def addOneTodoTag (tid : Nat) (db : DB) (name : String) : Option DB :=
  let db1 := ensureTag db name
  (db1.tags.find? (fun t => decide (t.name = name))).map (fun trow =>
    if db1.todo_tags.any (fun tt => decide (tt.todo_id = tid ∧ tt.tag_id = trow.id)) then db1
    else { db1 with todo_tags := db1.todo_tags ++ [{ todo_id := tid, tag_id := trow.id }] })

/-- add_todo_tags: verify ownership of the todo, loop over the tag names,
return the complete tag list of the todo. -/
def add_todo_tags (db : DB) (user_id todo_id : Nat) (tags : List String) :
    Option (List String) × DB :=
  match db.todos.find? (fun t => decide (t.id = todo_id ∧ t.user_id = user_id)) with
  | none => (none, db)
  | some _ =>
    match tags.foldlM (addOneTodoTag todo_id) db with
    | none => (none, db)
    | some db2 => (some (todoTags db2 todo_id), db2)

/-- create_folder: INSERT INTO folders; the UNIQUE(user_id, name, parent_id)
constraint only fires when parent_id is not NULL (SQL NULLs are distinct). -/
def create_folder (db : DB) (now : Nat) (user_id : Nat) (name : String)
    (parent_id : Option Nat) : Option Nat × DB :=
  let dup : Bool :=
    match parent_id with
    | none => false
    | some p =>
      db.folders.any (fun f => decide (f.user_id = user_id ∧ f.name = name ∧ f.parent_id = some p))
  if dup then (none, db)
  else
    (some db.next_folder_id,
      { db with
        folders := db.folders ++ [{ id := db.next_folder_id, user_id := user_id, name := name,
                                    parent_id := parent_id, created_at := now }],
        next_folder_id := db.next_folder_id + 1 })

/-- Record returned by get_user_folders_tree (a flat row list in source). -/
structure FolderView where
  id : Nat
  name : String
  parent_id : Option Nat
  created_at : Nat
deriving DecidableEq

/-- get_user_folders_tree: the user folder rows as flat records. The SQL
ORDER BY parent_id, name clause is not modelled (no claim depends on the
listing order of folders). -/
def get_user_folders_tree (db : DB) (user_id : Nat) : List FolderView :=
  (db.folders.filter (fun f => decide (f.user_id = user_id))).map
    (fun f => { id := f.id, name := f.name, parent_id := f.parent_id, created_at := f.created_at })

/-- link_note_to_folder: resolve the note scoped by user, then
INSERT OR IGNORE the junction row (folder existence is not checked). -/
def link_note_to_folder (db : DB) (user_id : Nat) (note_title : String) (folder_id : Nat) :
    Bool × DB :=
  match db.notes.find? (fun n => decide (n.user_id = user_id ∧ n.title = note_title)) with
  | none => (false, db)
  | some n =>
    if db.note_folders.any (fun nf => decide (nf.note_id = n.id ∧ nf.folder_id = folder_id)) then
      (true, db)
    else
      (true, { db with note_folders := db.note_folders ++ [{ note_id := n.id, folder_id := folder_id }] })

end NoteDatabase

/-! ## The session facade (main.py, class NoteDatabaseSystem)

Every method of the source returns a JSON envelope; success payloads are
modelled as typed values and failures as the error message string. The try
and except wrappers of the source never fire in the model (all operations
here are total), matching the rule that expected failures travel as return
values. -/

/-- The JSON envelope of a facade call: success payload or failure message. -/
inductive ApiResult (α : Type) where
  | ok : α → ApiResult α
  | err : String → ApiResult α
deriving DecidableEq

/-- Whole system state: the database plus the in-memory session dict. -/
structure SysState where
  db : DB
  active_sessions : List (String × String) := []
deriving DecidableEq

/-- Python dict lookup on the session association list (first match wins). -/
def lookupSession (sessions : List (String × String)) (sid : String) : Option String :=
  (sessions.find? (fun p => decide (p.1 = sid))).map (fun p => p.2)

namespace NoteDatabaseSystem

/-- register_user: validate the username and password, then create_user. -/
def register_user (st : SysState) (now : Nat) (username password : String) :
    ApiResult Unit × SysState :=
  if pyStrip username = "" then (.err "Username is require and cannot be empty", st)
  else if password = "" then (.err "Password is required and cannot be empty", st)
  else if pyStrip password = "" then (.err "Password cannot be only whitespace", st)
  else if (pyStrip password).data.length < 3 then
    (.err "Password must be at least 3 characters long", st)
  else
    let r := NoteDatabase.create_user st.db now (pyStrip username) (pyStrip password)
    if r.1 then (.ok (), { st with db := r.2 })
    else (.err "User registration failed", { st with db := r.2 })

/-- login_user: validate, verify credentials, then store the fresh session
token (uuid4 modelled as the token parameter). -/
def login_user (st : SysState) (token : String) (username password : String) :
    ApiResult String × SysState :=
  if pyStrip username = "" then (.err "Username is required and cannot be empty", st)
  else if password = "" then (.err "Password is required and cannot be empty", st)
  else if pyStrip password = "" then (.err "Password cannot be only whitespace", st)
  else if NoteDatabase.verify_user st.db (pyStrip username) (pyStrip password) then
    (.ok token, { st with active_sessions := (token, pyStrip username) :: st.active_sessions })
  else (.err "Invalid username or password", st)

/-- logout_user: delete the session entry when present. -/
def logout_user (st : SysState) (session_id : String) : ApiResult Unit × SysState :=
  if (lookupSession st.active_sessions session_id).isSome then
    (.ok (), { st with active_sessions := st.active_sessions.filter (fun p => !decide (p.1 = session_id)) })
  else (.err "Invalid session", st)

/-- _validate_session: token to username to user id; the Python falsy test
(if not user_id) also rejects a user id of 0. -/
def validate_session (st : SysState) (session_id : String) : Option Nat :=
  match lookupSession st.active_sessions session_id with
  | none => none
  | some username =>
    match NoteDatabase.get_user_id st.db username with
    | none => none
    | some uid => if uid = 0 then none else some uid

/-- The shared authentication prologue of every facade operation. -/
def withAuth {α : Type} (st : SysState) (session_id : String)
    (k : Nat → ApiResult α × SysState) : ApiResult α × SysState :=
  match validate_session st session_id with
  | none => (.err "Not logged in", st)
  | some uid => k uid

/-- Python slicing plus conditional ellipsis: content[:limit] followed by
"..." exactly when the content is longer than limit characters. -/
def previewN (limit : Nat) (content : String) : String :=
  ⟨content.data.take limit ++ (if limit < content.data.length then "...".data else [])⟩

/-- create_note body (after authentication). -/
def create_note_body (st : SysState) (now uid : Nat) (title content : String) :
    ApiResult Nat × SysState :=
  if pyStrip title = "" ∨ pyStrip content = "" then
    (.err "Title and content are required", st)
  else
    match NoteDatabase.create_note st.db now uid (pyStrip title) (pyStrip content) with
    | (some nid, db2) =>
      if nid = 0 then (.err "Note title already exists", { st with db := db2 })
      else (.ok nid, { st with db := db2 })
    | (none, db2) => (.err "Note title already exists", { st with db := db2 })

/-- create_note facade operation. -/
def create_note (st : SysState) (now : Nat) (session_id title content : String) :
    ApiResult Nat × SysState :=
  withAuth st session_id (fun uid => create_note_body st now uid title content)

/-- get_note body. -/
def get_note_body (st : SysState) (uid : Nat) (title : String) :
    ApiResult NoteDatabase.NoteView × SysState :=
  if pyStrip title = "" then (.err "Title is required", st)
  else
    match NoteDatabase.get_note_by_title st.db uid (pyStrip title) with
    | some note => (.ok note, st)
    | none => (.err "Note not found", st)

/-- get_note facade operation. -/
def get_note (st : SysState) (session_id title : String) :
    ApiResult NoteDatabase.NoteView × SysState :=
  withAuth st session_id (fun uid => get_note_body st uid title)

/-- Entry of the list_notes response: a preview replaces the content field
(the source deletes the content key from each dictionary). -/
structure NoteListEntry where
  id : Nat
  title : String
  created_at : Nat
  modified_at : Nat
  tags : List String
  preview : String
deriving DecidableEq

/-- list_notes body: shape each note with a 100 character preview. -/
def list_notes_body (st : SysState) (uid limit : Nat) :
    ApiResult (List NoteListEntry) × SysState :=
  (.ok ((NoteDatabase.get_user_notes st.db uid limit).map (fun n =>
    { id := n.id, title := n.title, created_at := n.created_at,
      modified_at := n.modified_at, tags := n.tags, preview := previewN 100 n.content })), st)

/-- list_notes facade operation. -/
def list_notes (st : SysState) (session_id : String) (limit : Nat) :
    ApiResult (List NoteListEntry) × SysState :=
  withAuth st session_id (fun uid => list_notes_body st uid limit)

/-- edit_note body. -/
def edit_note_body (st : SysState) (now uid : Nat) (title new_content : String) :
    ApiResult Unit × SysState :=
  if pyStrip title = "" ∨ pyStrip new_content = "" then
    (.err "Title and content are required", st)
  else
    let r := NoteDatabase.update_note_content st.db now uid (pyStrip title) (pyStrip new_content)
    if r.1 then (.ok (), { st with db := r.2 })
    else (.err "Note not found", { st with db := r.2 })

/-- edit_note facade operation. -/
def edit_note (st : SysState) (now : Nat) (session_id title new_content : String) :
    ApiResult Unit × SysState :=
  withAuth st session_id (fun uid => edit_note_body st now uid title new_content)

/-- update_note_title body (the source first refuses when a note with the
new title already exists, then delegates). -/
def update_note_title_body (st : SysState) (now uid : Nat) (old_title new_title : String) :
    ApiResult Unit × SysState :=
  if pyStrip old_title = "" ∨ pyStrip new_title = "" then
    (.err "Both titles are required", st)
  else if (NoteDatabase.get_note_by_title st.db uid (pyStrip new_title)).isSome then
    (.err "Original note not found", st)
  else
    let r := NoteDatabase.update_note_title st.db now uid (pyStrip old_title) (pyStrip new_title)
    if r.1 then (.ok (), { st with db := r.2 })
    else (.err "Note not found", { st with db := r.2 })

/-- update_note_title facade operation. -/
def update_note_title (st : SysState) (now : Nat) (session_id old_title new_title : String) :
    ApiResult Unit × SysState :=
  withAuth st session_id (fun uid => update_note_title_body st now uid old_title new_title)

/-- delete_note body. -/
def delete_note_body (st : SysState) (uid : Nat) (title : String) :
    ApiResult Unit × SysState :=
  if pyStrip title = "" then (.err "Title is required", st)
  else
    let r := NoteDatabase.delete_note st.db uid (pyStrip title)
    if r.1 then (.ok (), { st with db := r.2 })
    else (.err "Note not found", { st with db := r.2 })

/-- delete_note facade operation. -/
def delete_note (st : SysState) (session_id title : String) : ApiResult Unit × SysState :=
  withAuth st session_id (fun uid => delete_note_body st uid title)

/-- Entry of the search_notes response: a 150 character preview replaces the
content field. -/
structure SearchResultEntry where
  id : Nat
  title : String
  created_at : Nat
  modified_at : Nat
  preview : String
deriving DecidableEq

/-- search_notes body. -/
def search_notes_body (st : SysState) (uid : Nat) (query : String) :
    ApiResult (List SearchResultEntry) × SysState :=
  if pyStrip query = "" then (.err "Search query is required", st)
  else
    (.ok ((NoteDatabase.search_user_notes st.db uid (pyStrip query)).map (fun n =>
      { id := n.id, title := n.title, created_at := n.created_at,
        modified_at := n.modified_at, preview := previewN 150 n.content })), st)

/-- search_notes facade operation. -/
def search_notes (st : SysState) (session_id query : String) :
    ApiResult (List SearchResultEntry) × SysState :=
  withAuth st session_id (fun uid => search_notes_body st uid query)

/-- add_tags body: require at least one tag that is nonempty after
trimming, drop empty ones, then delegate. -/
def add_tags_body (st : SysState) (uid : Nat) (title : String) (tags : List String) :
    ApiResult (List String) × SysState :=
  if pyStrip title = "" then (.err "Title is required", st)
  else if tags.all (fun t => decide (pyStrip t = "")) then
    (.err "At least one valid tag is required", st)
  else
    let clean_tags := tags.filterMap (fun t => if pyStrip t = "" then none else some (pyStrip t))
    match NoteDatabase.add_note_tags st.db uid (pyStrip title) clean_tags with
    | (some all_tags, db2) => (.ok all_tags, { st with db := db2 })
    | (none, db2) => (.err "Note not found", { st with db := db2 })

/-- add_tags facade operation. -/
def add_tags (st : SysState) (session_id title : String) (tags : List String) :
    ApiResult (List String) × SysState :=
  withAuth st session_id (fun uid => add_tags_body st uid title tags)

/-- get_stats body. -/
def get_stats_body (st : SysState) (uid : Nat) :
    ApiResult NoteDatabase.StatsView × SysState :=
  (.ok (NoteDatabase.get_user_stats st.db uid), st)

/-- get_stats facade operation. -/
def get_stats (st : SysState) (session_id : String) :
    ApiResult NoteDatabase.StatsView × SysState :=
  withAuth st session_id (fun uid => get_stats_body st uid)

/-- create_todo body: an invalid priority is silently replaced by normal
(the source comments: default to normal if invalid); the description is
stripped (Python: description.strip() if description else "", which equals
plain stripping on every string); a linked note title is stripped unless
falsy; tags are cleaned and attached when nonempty; the call always reports
success with the new id. Python gives tags = None and tags = [] the same
falsy behaviour, so both are the empty list here. -/
def create_todo_body (st : SysState) (now uid : Nat) (title description : String)
    (due_date : Option String) (priority : String) (tags : List String)
    (note_title : Option String) : ApiResult (Option Nat) × SysState :=
  if pyStrip title = "" then (.err "Title is required", st)
  else
    let prio := if priority = "low" ∨ priority = "normal" ∨ priority = "high"
                then priority else "normal"
    let cleaned_note_title : Option String :=
      match note_title with
      | none => none
      | some s => if s = "" then none else some (pyStrip s)
    let r := NoteDatabase.create_todo st.db now uid (pyStrip title) (pyStrip description)
      due_date prio cleaned_note_title
    let db2 :=
      match r.1 with
      | some tid =>
        if tid ≠ 0 ∧ tags ≠ [] then
          let clean_tags := tags.filterMap (fun t => if pyStrip t = "" then none else some (pyStrip t))
          if clean_tags ≠ [] then (NoteDatabase.add_todo_tags r.2 uid tid clean_tags).2
          else r.2
        else r.2
      | none => r.2
    (.ok r.1, { st with db := db2 })

/-- create_todo facade operation. -/
def create_todo (st : SysState) (now : Nat) (session_id title description : String)
    (due_date : Option String) (priority : String) (tags : List String)
    (note_title : Option String) : ApiResult (Option Nat) × SysState :=
  withAuth st session_id (fun uid =>
    create_todo_body st now uid title description due_date priority tags note_title)

/-- Entry of the list_todos response (description and created_at dropped). -/
structure TodoListEntry where
  id : Nat
  title : String
  due_date : Option String
  priority : String
  completed : Bool
  tags : List String
  note_title : Option String
deriving DecidableEq

/-- list_todos body. -/
def list_todos_body (st : SysState) (uid : Nat)
    (status tag priority linked_to_note : Option String) :
    ApiResult (List TodoListEntry) × SysState :=
  (.ok ((NoteDatabase.get_user_todos st.db uid status tag priority linked_to_note).map (fun t =>
    { id := t.id, title := t.title, due_date := t.due_date, priority := t.priority,
      completed := t.completed, tags := t.tags, note_title := t.note_title })), st)

/-- list_todos facade operation. -/
def list_todos (st : SysState) (session_id : String)
    (status tag priority linked_to_note : Option String) :
    ApiResult (List TodoListEntry) × SysState :=
  withAuth st session_id (fun uid => list_todos_body st uid status tag priority linked_to_note)

/-- toggle_todo body. -/
def toggle_todo_body (st : SysState) (uid todo_id : Nat) : ApiResult Unit × SysState :=
  let r := NoteDatabase.toggle_todo st.db uid todo_id
  if r.1 then (.ok (), { st with db := r.2 })
  else (.err "Todo not found", { st with db := r.2 })

/-- toggle_todo facade operation. -/
def toggle_todo (st : SysState) (session_id : String) (todo_id : Nat) :
    ApiResult Unit × SysState :=
  withAuth st session_id (fun uid => toggle_todo_body st uid todo_id)

/-- delete_todo body. -/
def delete_todo_body (st : SysState) (uid todo_id : Nat) : ApiResult Unit × SysState :=
  let r := NoteDatabase.delete_todo st.db uid todo_id
  if r.1 then (.ok (), { st with db := r.2 })
  else (.err "Todo not found", { st with db := r.2 })

/-- delete_todo facade operation. -/
def delete_todo (st : SysState) (session_id : String) (todo_id : Nat) :
    ApiResult Unit × SysState :=
  withAuth st session_id (fun uid => delete_todo_body st uid todo_id)

/-- create_folder body: the source strips the name but, unlike every other
facade operation, performs NO emptiness check before calling the access
layer; the Python falsy test on folder_id also treats id 0 as failure. -/
def create_folder_body (st : SysState) (now uid : Nat) (name : String)
    (parent_id : Option Nat) : ApiResult Nat × SysState :=
  match NoteDatabase.create_folder st.db now uid (pyStrip name) parent_id with
  | (some fid, db2) =>
    if fid = 0 then (.err "Folder name already exists", { st with db := db2 })
    else (.ok fid, { st with db := db2 })
  | (none, db2) => (.err "Folder name already exists", { st with db := db2 })

/-- create_folder facade operation. -/
def create_folder (st : SysState) (now : Nat) (session_id name : String)
    (parent_id : Option Nat) : ApiResult Nat × SysState :=
  withAuth st session_id (fun uid => create_folder_body st now uid name parent_id)

/-- get_user_folders body. -/
def get_user_folders_body (st : SysState) (uid : Nat) :
    ApiResult (List NoteDatabase.FolderView) × SysState :=
  (.ok (NoteDatabase.get_user_folders_tree st.db uid), st)

/-- get_user_folders facade operation. -/
def get_user_folders (st : SysState) (session_id : String) :
    ApiResult (List NoteDatabase.FolderView) × SysState :=
  withAuth st session_id (fun uid => get_user_folders_body st uid)

/-- link_note_to_folder body (the source passes note_title unstripped). -/
def link_note_to_folder_body (st : SysState) (uid : Nat) (note_title : String)
    (folder_id : Nat) : ApiResult Unit × SysState :=
  let r := NoteDatabase.link_note_to_folder st.db uid note_title folder_id
  if r.1 then (.ok (), { st with db := r.2 })
  else (.err "Note or folder not found", { st with db := r.2 })

/-- link_note_to_folder facade operation. -/
def link_note_to_folder (st : SysState) (session_id note_title : String) (folder_id : Nat) :
    ApiResult Unit × SysState :=
  withAuth st session_id (fun uid => link_note_to_folder_body st uid note_title folder_id)

end NoteDatabaseSystem

/-! ## Generic helper lemmas -/

theorem mem_insertDescBy {α : Type} (key : α → Nat) (x a : α) (l : List α) :
    a ∈ insertDescBy key x l ↔ a = x ∨ a ∈ l := by
  induction l with
  | nil => simp [insertDescBy]
  | cons y ys ih =>
    simp only [insertDescBy]
    split
    · simp [List.mem_cons]
    · simp only [List.mem_cons, ih]
      tauto

theorem mem_sortDescBy {α : Type} (key : α → Nat) (a : α) (l : List α) :
    a ∈ sortDescBy key l ↔ a ∈ l := by
  induction l with
  | nil => simp [sortDescBy]
  | cons x xs ih => simp [sortDescBy, mem_insertDescBy, ih]

theorem pairwise_insertDescBy {α : Type} (key : α → Nat) (x : α) (l : List α)
    (h : l.Pairwise (fun a b => key b ≤ key a)) :
    (insertDescBy key x l).Pairwise (fun a b => key b ≤ key a) := by
  induction l with
  | nil => simp [insertDescBy]
  | cons y ys ih =>
    rw [List.pairwise_cons] at h
    obtain ⟨hy, hys⟩ := h
    simp only [insertDescBy]
    split
    · rename_i hle
      refine List.Pairwise.cons ?_ (List.Pairwise.cons hy hys)
      intro b hb
      rcases List.mem_cons.mp hb with rfl | hb
      · exact hle
      · exact le_trans (hy b hb) hle
    · rename_i hgt
      refine List.Pairwise.cons ?_ (ih hys)
      intro b hb
      rcases (mem_insertDescBy key x b ys).mp hb with rfl | hb
      · omega
      · exact hy b hb

theorem pairwise_sortDescBy {α : Type} (key : α → Nat) (l : List α) :
    (sortDescBy key l).Pairwise (fun a b => key b ≤ key a) := by
  induction l with
  | nil => simp [sortDescBy]
  | cons x xs ih => exact pairwise_insertDescBy key x _ ih

theorem find?_eq_of_nodup_key {α : Type} (key : α → Nat) (l : List α) (r : α)
    (h : (l.map key).Nodup) (hr : r ∈ l) :
    l.find? (fun t => decide (key t = key r)) = some r := by
  induction l with
  | nil => simp at hr
  | cons x xs ih =>
    rw [List.map_cons, List.nodup_cons] at h
    obtain ⟨hx, hxs⟩ := h
    rcases List.mem_cons.mp hr with rfl | hr
    · exact List.find?_cons_of_pos _ (by simp)
    · rw [List.find?_cons_of_neg]
      · exact ih hxs hr
      · simp only [decide_eq_true_eq]
        intro he
        exact hx (he ▸ List.mem_map_of_mem key hr)

/-! ## Database well-formedness

Invariants maintained by the schema (AUTOINCREMENT ids are fresh and
unique, ids start at 1, tag names are unique). Claims assume them where a
fresh id or a unique lookup matters. -/

def WF (db : DB) : Prop :=
  (∀ n ∈ db.notes, n.id < db.next_note_id) ∧
  (db.notes.map NoteRow.id).Nodup ∧
  (∀ t ∈ db.tags, t.id < db.next_tag_id) ∧
  (db.tags.map TagRow.id).Nodup ∧
  (db.tags.map TagRow.name).Nodup ∧
  (∀ nt ∈ db.note_tags, nt.note_id < db.next_note_id ∧ nt.tag_id < db.next_tag_id) ∧
  (∀ u ∈ db.users, 0 < u.id)

/-! ## Claim C1 -/

/-- C1: if a note (U, T) already exists, a second create_note(U, T, C2)
returns None and the database, in particular the original content, is
completely unchanged: either the row is inserted or nothing changes. -/
theorem c1_create_note_duplicate_unchanged (db : DB) (now u : Nat) (t c c2 : String)
    (h : ∃ n ∈ db.notes, n.user_id = u ∧ n.title = t ∧ n.content = c) :
    NoteDatabase.create_note db now u t c2 = (none, db) ∧
    ∃ n ∈ db.notes, n.user_id = u ∧ n.title = t ∧ n.content = c := by
  obtain ⟨n, hn, hu, ht, hc⟩ := h
  have hex : ∃ x ∈ db.notes, x.user_id = u ∧ x.title = t := ⟨n, hn, hu, ht⟩
  exact ⟨by simp [NoteDatabase.create_note, hex], ⟨n, hn, hu, ht, hc⟩⟩

def wNote : NoteRow :=
  { id := 1, user_id := 5, title := "T", content := "orig", created_at := 0,
    modified_at := 0, reminder_date := none }

def wDB1 : DB := { notes := [wNote], next_note_id := 2 }

/-- Witness for C1 at a concrete database. -/
theorem c1_witness :
    (∃ n ∈ wDB1.notes, n.user_id = 5 ∧ n.title = "T" ∧ n.content = "orig") ∧
    NoteDatabase.create_note wDB1 3 5 "T" "new" = (none, wDB1) :=
  ⟨by decide, (c1_create_note_duplicate_unchanged wDB1 3 5 "T" "orig" "new" (by decide)).1⟩

/-! ## Claim C5 -/

/-- C5: creating a fresh note and reading it back by title returns exactly
the stored content and the empty tag list (never null: the tags field is a
total list). -/
theorem c5_create_get_roundtrip (db : DB) (now u : Nat) (t body : String)
    (hwf : WF db)
    (hfresh : ∀ n ∈ db.notes, ¬(n.user_id = u ∧ n.title = t)) :
    (NoteDatabase.create_note db now u t body).1 = some db.next_note_id ∧
    NoteDatabase.get_note_by_title (NoteDatabase.create_note db now u t body).2 u t =
      some { id := db.next_note_id, title := t, content := body, created_at := now,
             modified_at := now, reminder_date := none, tags := [] } := by
  obtain ⟨-, -, -, -, -, hnt, -⟩ := hwf
  have hnex : ¬∃ x ∈ db.notes, x.user_id = u ∧ x.title = t := by
    rintro ⟨x, hx, hux, htx⟩
    exact hfresh x hx ⟨hux, htx⟩
  have hfind : db.notes.find? (fun n => decide (n.user_id = u ∧ n.title = t)) = none := by
    rw [List.find?_eq_none]
    intro n hn
    simpa using hfresh n hn
  have hlinks : db.note_tags.filter (fun nt => decide (nt.note_id = db.next_note_id)) = [] := by
    rw [List.filter_eq_nil_iff]
    intro nt hn
    have := (hnt nt hn).1
    simp only [decide_eq_true_eq]
    omega
  refine ⟨by simp [NoteDatabase.create_note, hnex], ?_⟩
  simp [NoteDatabase.create_note, hnex, NoteDatabase.get_note_by_title,
    List.find?_append, hfind, NoteDatabase.noteTags, hlinks]
  refine ⟨_, Or.inr ⟨fun x hx hux htx => hfresh x hx ⟨hux, htx⟩, rfl⟩,
    rfl, rfl, rfl, rfl, rfl, rfl, ?_⟩
  intro nt hmem hid x hx
  have hlt := (hnt nt hmem).1
  have hid2 : nt.note_id = db.next_note_id := hid
  omega

def wDB0 : DB := {}

/-- Witness for C5 at a concrete database. -/
theorem c5_witness :
    WF wDB0 ∧
    NoteDatabase.get_note_by_title (NoteDatabase.create_note wDB0 7 4 "X" "body").2 4 "X" =
      some { id := 1, title := "X", content := "body", created_at := 7,
             modified_at := 7, reminder_date := none, tags := [] } :=
  ⟨by constructor <;> decide,
    (c5_create_get_roundtrip wDB0 7 4 "X" "body" (by constructor <;> decide)
      (by decide)).2⟩

/-! ## Claim C2: user isolation helpers -/

/-- The notes owned by one user. -/
def notesOf (db : DB) (u : Nat) : List NoteRow :=
  db.notes.filter (fun n => decide (n.user_id = u))

/-- The todos owned by one user. -/
def todosOf (db : DB) (u : Nat) : List TodoRow :=
  db.todos.filter (fun t => decide (t.user_id = u))

/-- The folders owned by one user. -/
def foldersOf (db : DB) (u : Nat) : List FolderRow :=
  db.folders.filter (fun f => decide (f.user_id = u))

/-- All data of user u observed equal in two database states. -/
def obsEq (db db2 : DB) (u : Nat) : Prop :=
  notesOf db2 u = notesOf db u ∧ todosOf db2 u = todosOf db u ∧ foldersOf db2 u = foldersOf db u

theorem filter_map_untouched {α : Type} (uid : α → Nat) (u1 u2 : Nat) (h12 : u1 ≠ u2)
    (q : α → Prop) [DecidablePred q] (hq : ∀ a, q a → uid a = u1)
    (g : α → α) (hg : ∀ a, uid (g a) = uid a) (l : List α) :
    (l.map (fun a => if q a then g a else a)).filter (fun a => decide (uid a = u2)) =
      l.filter (fun a => decide (uid a = u2)) := by
  induction l with
  | nil => rfl
  | cons x xs ih =>
    simp only [List.map_cons, List.filter_cons]
    by_cases hx : q x
    · rw [if_pos hx]
      have hux : uid x = u1 := hq x hx
      have h1 : (decide (uid (g x) = u2)) = false := by
        simp only [decide_eq_false_iff_not, hg, hux]
        exact h12
      have h2 : (decide (uid x = u2)) = false := by
        simp only [decide_eq_false_iff_not, hux]
        exact h12
      simp [h1, h2, ih]
    · rw [if_neg hx]
      cases hd : decide (uid x = u2) <;> simp [hd, ih]

theorem filter_filter_untouched {α : Type} (uid : α → Nat) (u1 u2 : Nat) (h12 : u1 ≠ u2)
    (q : α → Prop) [DecidablePred q] (hq : ∀ a, q a → uid a = u1) (l : List α) :
    (l.filter (fun a => !decide (q a))).filter (fun a => decide (uid a = u2)) =
      l.filter (fun a => decide (uid a = u2)) := by
  induction l with
  | nil => rfl
  | cons x xs ih =>
    simp only [List.filter_cons]
    by_cases hx : q x
    · have h2 : (decide (uid x = u2)) = false := by
        simp only [decide_eq_false_iff_not, hq x hx]
        exact h12
      simp [hx, h2, ih]
    · cases hd : decide (uid x = u2) <;> simp [hx, hd, ih]

/-- What one pass of the tagging loop may do to the database: only the tags
table (fresh rows) and the note_tags table (links of the given note) grow. -/
structure TagStep (nid : Nat) (db db2 : DB) : Prop where
  users_eq : db2.users = db.users
  notes_eq : db2.notes = db.notes
  todos_eq : db2.todos = db.todos
  folders_eq : db2.folders = db.folders
  todo_tags_eq : db2.todo_tags = db.todo_tags
  note_folders_eq : db2.note_folders = db.note_folders
  next_user_eq : db2.next_user_id = db.next_user_id
  next_note_eq : db2.next_note_id = db.next_note_id
  next_todo_eq : db2.next_todo_id = db.next_todo_id
  next_folder_eq : db2.next_folder_id = db.next_folder_id
  next_tag_le : db.next_tag_id ≤ db2.next_tag_id
  tags_ext : ∃ ext, db2.tags = db.tags ++ ext ∧ ∀ r ∈ ext, db.next_tag_id ≤ r.id
  links_ext : ∃ ext, db2.note_tags = db.note_tags ++ ext ∧ ∀ x ∈ ext, x.note_id = nid

theorem tagStep_refl (nid : Nat) (db : DB) : TagStep nid db db :=
  ⟨rfl, rfl, rfl, rfl, rfl, rfl, rfl, rfl, rfl, rfl, le_refl _,
    ⟨[], by simp, by simp⟩, ⟨[], by simp, by simp⟩⟩

theorem tagStep_trans {nid : Nat} {db1 db2 db3 : DB}
    (h1 : TagStep nid db1 db2) (h2 : TagStep nid db2 db3) : TagStep nid db1 db3 := by
  obtain ⟨e1, he1, hb1⟩ := h1.tags_ext
  obtain ⟨e2, he2, hb2⟩ := h2.tags_ext
  obtain ⟨f1, hf1, hn1⟩ := h1.links_ext
  obtain ⟨f2, hf2, hn2⟩ := h2.links_ext
  refine ⟨h2.users_eq.trans h1.users_eq, h2.notes_eq.trans h1.notes_eq,
    h2.todos_eq.trans h1.todos_eq, h2.folders_eq.trans h1.folders_eq,
    h2.todo_tags_eq.trans h1.todo_tags_eq, h2.note_folders_eq.trans h1.note_folders_eq,
    h2.next_user_eq.trans h1.next_user_eq, h2.next_note_eq.trans h1.next_note_eq,
    h2.next_todo_eq.trans h1.next_todo_eq, h2.next_folder_eq.trans h1.next_folder_eq,
    le_trans h1.next_tag_le h2.next_tag_le, ⟨e1 ++ e2, ?_, ?_⟩, ⟨f1 ++ f2, ?_, ?_⟩⟩
  · rw [he2, he1, List.append_assoc]
  · intro r hr
    rcases List.mem_append.mp hr with hr | hr
    · exact hb1 r hr
    · exact le_trans h1.next_tag_le (hb2 r hr)
  · rw [hf2, hf1, List.append_assoc]
  · intro x hx
    rcases List.mem_append.mp hx with hx | hx
    · exact hn1 x hx
    · exact hn2 x hx

theorem ensureTag_tagStep (nid : Nat) (db : DB) (name : String) :
    TagStep nid db (NoteDatabase.ensureTag db name) := by
  unfold NoteDatabase.ensureTag
  by_cases h : (db.tags.any fun t => decide (t.name = name)) = true
  · rw [if_pos h]
    exact tagStep_refl nid db
  · rw [if_neg h]
    exact ⟨rfl, rfl, rfl, rfl, rfl, rfl, rfl, rfl, rfl, rfl, Nat.le_succ _,
      ⟨[{ id := db.next_tag_id, name := name }], rfl, by simp⟩, ⟨[], by simp, by simp⟩⟩

theorem addOneTag_tagStep {nid : Nat} {db db2 : DB} {name : String}
    (h : NoteDatabase.addOneTag nid db name = some db2) : TagStep nid db db2 := by
  unfold NoteDatabase.addOneTag at h
  dsimp only at h
  have hstep1 : TagStep nid db (NoteDatabase.ensureTag db name) := ensureTag_tagStep nid db name
  cases hf : (NoteDatabase.ensureTag db name).tags.find? (fun t => decide (t.name = name)) with
  | none => rw [hf] at h; simp at h
  | some trow =>
    rw [hf] at h
    rw [Option.map_some'] at h
    refine tagStep_trans hstep1 ?_
    split at h
    · rw [← Option.some_inj.mp h]
      exact tagStep_refl nid _
    · rw [← Option.some_inj.mp h]
      exact ⟨rfl, rfl, rfl, rfl, rfl, rfl, rfl, rfl, rfl, rfl, le_refl _,
        ⟨[], by simp, by simp⟩, ⟨[{ note_id := nid, tag_id := trow.id }], rfl, by simp⟩⟩

theorem foldlM_addOneTag_tagStep {nid : Nat} (ts : List String) {db db2 : DB}
    (h : ts.foldlM (NoteDatabase.addOneTag nid) db = some db2) : TagStep nid db db2 := by
  induction ts generalizing db with
  | nil =>
    simp only [List.foldlM_nil] at h
    rw [← Option.some_inj.mp h]
    exact tagStep_refl nid db
  | cons name rest ih =>
    rw [List.foldlM_cons] at h
    cases hf : NoteDatabase.addOneTag nid db name with
    | none => rw [hf] at h; simp at h
    | some dbm =>
      rw [hf] at h
      rw [Option.bind_eq_bind, Option.some_bind] at h
      exact tagStep_trans (addOneTag_tagStep hf) (ih h)

theorem filterMap_tagNames_stable (tags ext : List TagRow) (links : List NoteTagRow) (k : Nat)
    (hb : ∀ nt ∈ links, nt.tag_id < k) (hext : ∀ r ∈ ext, k ≤ r.id) :
    links.filterMap (fun nt =>
        ((tags ++ ext).find? (fun t => decide (t.id = nt.tag_id))).map (fun t => t.name)) =
      links.filterMap (fun nt =>
        (tags.find? (fun t => decide (t.id = nt.tag_id))).map (fun t => t.name)) := by
  induction links with
  | nil => rfl
  | cons nt rest ih =>
    have hxf : ext.find? (fun t => decide (t.id = nt.tag_id)) = none := by
      rw [List.find?_eq_none]
      intro r hr
      have := hext r hr
      have := hb nt (List.mem_cons_self nt rest)
      simp only [decide_eq_true_eq]
      omega
    have hhead : (tags ++ ext).find? (fun t => decide (t.id = nt.tag_id)) =
        tags.find? (fun t => decide (t.id = nt.tag_id)) := by
      rw [List.find?_append, hxf, Option.or_none]
    simp only [List.filterMap_cons, hhead,
      ih (fun x hx => hb x (List.mem_cons_of_mem nt hx))]

/-! ## Claim C2 -/

/-- C2: isolation between distinct users U1 and U2. Every read operation
invoked for U1 (get_note_by_title, get_user_notes, search_user_notes,
get_user_todos) returns only records owned by U1; requesting a title that
U1 does not own reports the same absent result as a genuinely missing note
regardless of other users; and each mutating operation invoked for U1
(content update, title update, note delete, tagging, todo toggle, todo
delete) leaves every note, todo and folder of U2 (including the tag lists
of the notes of U2) unchanged. -/
theorem c2_user_isolation (db : DB) (u1 u2 : Nat) (h12 : u1 ≠ u2) (hwf : WF db) :
    (∀ t v, NoteDatabase.get_note_by_title db u1 t = some v →
      ∃ n ∈ db.notes, n.user_id = u1 ∧ n.title = t ∧ v.id = n.id ∧ v.content = n.content) ∧
    (∀ lim v, v ∈ NoteDatabase.get_user_notes db u1 lim →
      ∃ n ∈ db.notes, n.user_id = u1 ∧ v.id = n.id) ∧
    (∀ q v, v ∈ NoteDatabase.search_user_notes db u1 q →
      ∃ n ∈ db.notes, n.user_id = u1 ∧ v.id = n.id) ∧
    (∀ s tg pr ln v, v ∈ NoteDatabase.get_user_todos db u1 s tg pr ln →
      ∃ r ∈ db.todos, r.user_id = u1 ∧ v.id = r.id) ∧
    (∀ t, (∀ n ∈ db.notes, ¬(n.user_id = u1 ∧ n.title = t)) →
      NoteDatabase.get_note_by_title db u1 t = none) ∧
    (∀ now t c, obsEq db (NoteDatabase.update_note_content db now u1 t c).2 u2) ∧
    (∀ now t t2, obsEq db (NoteDatabase.update_note_title db now u1 t t2).2 u2) ∧
    (∀ t, obsEq db (NoteDatabase.delete_note db u1 t).2 u2) ∧
    (∀ t ts, obsEq db (NoteDatabase.add_note_tags db u1 t ts).2 u2 ∧
      ∀ m ∈ db.notes, m.user_id = u2 →
        NoteDatabase.noteTags (NoteDatabase.add_note_tags db u1 t ts).2 m.id =
          NoteDatabase.noteTags db m.id) ∧
    (∀ tid, obsEq db (NoteDatabase.toggle_todo db u1 tid).2 u2) ∧
    (∀ tid, obsEq db (NoteDatabase.delete_todo db u1 tid).2 u2) := by
  obtain ⟨-, hNodup, -, -, -, hNT, -⟩ := hwf
  refine ⟨?_, ?_, ?_, ?_, ?_, ?_, ?_, ?_, ?_, ?_, ?_⟩
  · -- get_note_by_title ownership
    intro t v hv
    unfold NoteDatabase.get_note_by_title at hv
    rw [Option.map_eq_some'] at hv
    obtain ⟨n, hfind, hview⟩ := hv
    have hmem := List.mem_of_find?_eq_some hfind
    have hpred := List.find?_some hfind
    simp only [decide_eq_true_eq] at hpred
    exact ⟨n, hmem, hpred.1, hpred.2, by rw [← hview], by rw [← hview]⟩
  · -- get_user_notes ownership
    intro lim v hv
    unfold NoteDatabase.get_user_notes at hv
    rw [List.mem_map] at hv
    obtain ⟨n, hn, hview⟩ := hv
    have hn2 : n ∈ sortDescBy (fun n => n.modified_at)
        (db.notes.filter (fun n => decide (n.user_id = u1))) := List.take_subset _ _ hn
    have hn3 := (mem_sortDescBy _ n _).mp hn2
    obtain ⟨hmem, hpred⟩ := List.mem_filter.mp hn3
    simp only [decide_eq_true_eq] at hpred
    exact ⟨n, hmem, hpred, by rw [← hview]⟩
  · -- search_user_notes ownership
    intro q v hv
    unfold NoteDatabase.search_user_notes at hv
    rw [List.mem_map] at hv
    obtain ⟨n, hn, hview⟩ := hv
    have hn3 := (mem_sortDescBy _ n _).mp hn
    obtain ⟨hmem, hpred⟩ := List.mem_filter.mp hn3
    rw [Bool.and_eq_true] at hpred
    have hu := hpred.1
    simp only [decide_eq_true_eq] at hu
    exact ⟨n, hmem, hu, by rw [← hview]⟩
  · -- get_user_todos ownership
    intro s tg pr ln v hv
    unfold NoteDatabase.get_user_todos at hv
    rw [List.mem_filterMap] at hv
    obtain ⟨t, ht, hft⟩ := hv
    have ht3 := (mem_sortDescBy _ t _).mp ht
    obtain ⟨hmem, hkeep⟩ := List.mem_filter.mp ht3
    unfold NoteDatabase.todoRowKeep at hkeep
    simp only [Bool.and_eq_true, decide_eq_true_eq] at hkeep
    refine ⟨t, hmem, hkeep.1.1.1, ?_⟩
    dsimp only at hft
    split at hft
    · rw [← Option.some_inj.mp hft]
    · exact absurd hft (by simp)
  · -- absent result for titles not owned by u1
    intro t hmiss
    unfold NoteDatabase.get_note_by_title
    have hfind : db.notes.find? (fun n => decide (n.user_id = u1 ∧ n.title = t)) = none := by
      rw [List.find?_eq_none]
      intro n hn
      simpa using hmiss n hn
    rw [hfind]
    rfl
  · -- update_note_content leaves u2 untouched
    intro now t c
    refine ⟨?_, rfl, rfl⟩
    exact filter_map_untouched NoteRow.user_id u1 u2 h12
      (fun n => n.user_id = u1 ∧ n.title = t) (fun a ha => ha.1)
      (fun n => { n with content := c, modified_at := now }) (fun a => rfl) db.notes
  · -- update_note_title leaves u2 untouched
    intro now t t2
    unfold NoteDatabase.update_note_title
    split
    · exact ⟨rfl, rfl, rfl⟩
    · refine ⟨?_, rfl, rfl⟩
      exact filter_map_untouched NoteRow.user_id u1 u2 h12
        (fun n => n.user_id = u1 ∧ n.title = t) (fun a ha => ha.1)
        (fun n => { n with title := t2, modified_at := now }) (fun a => rfl) db.notes
  · -- delete_note leaves u2 untouched
    intro t
    refine ⟨?_, rfl, rfl⟩
    exact filter_filter_untouched NoteRow.user_id u1 u2 h12
      (fun n => n.user_id = u1 ∧ n.title = t) (fun a ha => ha.1) db.notes
  · -- add_note_tags leaves u2 untouched, including tag lists
    intro t ts
    unfold NoteDatabase.add_note_tags
    cases hfind : db.notes.find? (fun n => decide (n.user_id = u1 ∧ n.title = t)) with
    | none => exact ⟨⟨rfl, rfl, rfl⟩, fun m _ _ => rfl⟩
    | some n =>
      have hnmem := List.mem_of_find?_eq_some hfind
      have hnpred := List.find?_some hfind
      simp only [decide_eq_true_eq] at hnpred
      dsimp only
      cases hfold : ts.foldlM (NoteDatabase.addOneTag n.id) db with
      | none => exact ⟨⟨rfl, rfl, rfl⟩, fun m _ _ => rfl⟩
      | some db2 =>
        have hstep := foldlM_addOneTag_tagStep ts hfold
        obtain ⟨ext, hext, hextb⟩ := hstep.tags_ext
        obtain ⟨extL, hextL, hextLn⟩ := hstep.links_ext
        constructor
        · exact ⟨by unfold notesOf; rw [hstep.notes_eq],
            by unfold todosOf; rw [hstep.todos_eq],
            by unfold foldersOf; rw [hstep.folders_eq]⟩
        · intro m hm hmu
          have hmn : m.id ≠ n.id := by
            intro he
            have : m = n := List.inj_on_of_nodup_map hNodup hm hnmem he
            rw [this] at hmu
            exact h12 (hnpred.1 ▸ hmu.symm ▸ rfl)
          unfold NoteDatabase.noteTags
          rw [hextL, List.filter_append]
          have hLnil : extL.filter (fun nt => decide (nt.note_id = m.id)) = [] := by
            rw [List.filter_eq_nil_iff]
            intro x hx
            simp only [decide_eq_true_eq]
            rw [hextLn x hx]
            omega
          rw [hLnil, List.append_nil, hext]
          exact filterMap_tagNames_stable db.tags ext _ db.next_tag_id
            (fun nt hnt => (hNT nt (List.mem_filter.mp hnt).1).2) hextb
  · -- toggle_todo leaves u2 untouched
    intro tid
    unfold NoteDatabase.toggle_todo
    cases hfind : db.todos.find? (fun t => decide (t.id = tid ∧ t.user_id = u1)) with
    | none => exact ⟨rfl, rfl, rfl⟩
    | some row =>
      refine ⟨rfl, ?_, rfl⟩
      exact filter_map_untouched TodoRow.user_id u1 u2 h12
        (fun t => t.id = tid ∧ t.user_id = u1) (fun a ha => ha.2)
        (fun t => { t with completed := !row.completed }) (fun a => rfl) db.todos
  · -- delete_todo leaves u2 untouched
    intro tid
    refine ⟨rfl, ?_, rfl⟩
    exact filter_filter_untouched TodoRow.user_id u1 u2 h12
      (fun t => t.id = tid ∧ t.user_id = u1) (fun a ha => ha.2) db.todos

/-- Witness for C2 at a concrete database and user pair. -/
theorem c2_witness :
    (1 : Nat) ≠ 2 ∧ WF wDB1 ∧ obsEq wDB1 (NoteDatabase.delete_note wDB1 1 "T").2 2 :=
  ⟨by decide, by constructor <;> decide,
    (c2_user_isolation wDB1 1 2 (by decide) (by constructor <;> decide)).2.2.2.2.2.2.2.1 "T"⟩

/-! ## Claim C3 -/

theorem lookupSession_filter_eq_none (l : List (String × String)) (sid : String) :
    lookupSession (l.filter (fun p => !decide (p.1 = sid))) sid = none := by
  unfold lookupSession
  have hf : (l.filter (fun p => !decide (p.1 = sid))).find? (fun p => decide (p.1 = sid)) = none := by
    rw [List.find?_eq_none]
    intro p hp
    have h2 := (List.mem_filter.mp hp).2
    simp only [Bool.not_eq_true'] at h2
    simp [h2]
  rw [hf]
  rfl

/-- C3: session lifecycle. A token returned by a successful login maps to
the logged-in username and validates to the id of that user; whenever a
session validates, every authenticated facade operation proceeds into its
body for that user id; a token that does not appear in the session map
never validates; after logout the token no longer validates (in any state),
so by the rejection conjunct every authenticated facade operation called
with it returns the uniform not-authenticated envelope and leaves the state
untouched. All operations are total functions: no exception escapes. -/
theorem c3_session_lifecycle (st : SysState) (tok username password : String)
    (hids : ∀ u ∈ st.db.users, 0 < u.id)
    (hlog : (NoteDatabaseSystem.login_user st tok username password).1 = .ok tok) :
    (lookupSession
        (NoteDatabaseSystem.login_user st tok username password).2.active_sessions tok =
      some (pyStrip username)) ∧
    (∃ uid, NoteDatabaseSystem.validate_session
        (NoteDatabaseSystem.login_user st tok username password).2 tok = some uid ∧
      NoteDatabase.get_user_id st.db (pyStrip username) = some uid) ∧
    (∀ st2 sid uid, NoteDatabaseSystem.validate_session st2 sid = some uid →
      (∀ now title content, NoteDatabaseSystem.create_note st2 now sid title content =
        NoteDatabaseSystem.create_note_body st2 now uid title content) ∧
      (∀ title, NoteDatabaseSystem.get_note st2 sid title =
        NoteDatabaseSystem.get_note_body st2 uid title) ∧
      (∀ lim, NoteDatabaseSystem.list_notes st2 sid lim =
        NoteDatabaseSystem.list_notes_body st2 uid lim) ∧
      (∀ now title content, NoteDatabaseSystem.edit_note st2 now sid title content =
        NoteDatabaseSystem.edit_note_body st2 now uid title content) ∧
      (∀ now t1 t2, NoteDatabaseSystem.update_note_title st2 now sid t1 t2 =
        NoteDatabaseSystem.update_note_title_body st2 now uid t1 t2) ∧
      (∀ title, NoteDatabaseSystem.delete_note st2 sid title =
        NoteDatabaseSystem.delete_note_body st2 uid title) ∧
      (∀ q, NoteDatabaseSystem.search_notes st2 sid q =
        NoteDatabaseSystem.search_notes_body st2 uid q) ∧
      (∀ title ts, NoteDatabaseSystem.add_tags st2 sid title ts =
        NoteDatabaseSystem.add_tags_body st2 uid title ts) ∧
      (NoteDatabaseSystem.get_stats st2 sid = NoteDatabaseSystem.get_stats_body st2 uid) ∧
      (∀ now title desc due prio ts nt,
        NoteDatabaseSystem.create_todo st2 now sid title desc due prio ts nt =
          NoteDatabaseSystem.create_todo_body st2 now uid title desc due prio ts nt) ∧
      (∀ s tg pr ln, NoteDatabaseSystem.list_todos st2 sid s tg pr ln =
        NoteDatabaseSystem.list_todos_body st2 uid s tg pr ln) ∧
      (∀ tid, NoteDatabaseSystem.toggle_todo st2 sid tid =
        NoteDatabaseSystem.toggle_todo_body st2 uid tid) ∧
      (∀ tid, NoteDatabaseSystem.delete_todo st2 sid tid =
        NoteDatabaseSystem.delete_todo_body st2 uid tid) ∧
      (∀ now name pid, NoteDatabaseSystem.create_folder st2 now sid name pid =
        NoteDatabaseSystem.create_folder_body st2 now uid name pid) ∧
      (NoteDatabaseSystem.get_user_folders st2 sid =
        NoteDatabaseSystem.get_user_folders_body st2 uid) ∧
      (∀ nt fid, NoteDatabaseSystem.link_note_to_folder st2 sid nt fid =
        NoteDatabaseSystem.link_note_to_folder_body st2 uid nt fid)) ∧
    (∀ st2, lookupSession st2.active_sessions tok = none →
      NoteDatabaseSystem.validate_session st2 tok = none) ∧
    (∀ st2, NoteDatabaseSystem.validate_session
        (NoteDatabaseSystem.logout_user st2 tok).2 tok = none) ∧
    (∀ st2, NoteDatabaseSystem.validate_session st2 tok = none →
      (∀ now title content, NoteDatabaseSystem.create_note st2 now tok title content =
        (.err "Not logged in", st2)) ∧
      (∀ title, NoteDatabaseSystem.get_note st2 tok title = (.err "Not logged in", st2)) ∧
      (∀ lim, NoteDatabaseSystem.list_notes st2 tok lim = (.err "Not logged in", st2)) ∧
      (∀ now title content, NoteDatabaseSystem.edit_note st2 now tok title content =
        (.err "Not logged in", st2)) ∧
      (∀ now t1 t2, NoteDatabaseSystem.update_note_title st2 now tok t1 t2 =
        (.err "Not logged in", st2)) ∧
      (∀ title, NoteDatabaseSystem.delete_note st2 tok title = (.err "Not logged in", st2)) ∧
      (∀ q, NoteDatabaseSystem.search_notes st2 tok q = (.err "Not logged in", st2)) ∧
      (∀ title ts, NoteDatabaseSystem.add_tags st2 tok title ts = (.err "Not logged in", st2)) ∧
      (NoteDatabaseSystem.get_stats st2 tok = (.err "Not logged in", st2)) ∧
      (∀ now title desc due prio ts nt,
        NoteDatabaseSystem.create_todo st2 now tok title desc due prio ts nt =
          (.err "Not logged in", st2)) ∧
      (∀ s tg pr ln, NoteDatabaseSystem.list_todos st2 tok s tg pr ln =
        (.err "Not logged in", st2)) ∧
      (∀ tid, NoteDatabaseSystem.toggle_todo st2 tok tid = (.err "Not logged in", st2)) ∧
      (∀ tid, NoteDatabaseSystem.delete_todo st2 tok tid = (.err "Not logged in", st2)) ∧
      (∀ now name pid, NoteDatabaseSystem.create_folder st2 now tok name pid =
        (.err "Not logged in", st2)) ∧
      (NoteDatabaseSystem.get_user_folders st2 tok = (.err "Not logged in", st2)) ∧
      (∀ nt fid, NoteDatabaseSystem.link_note_to_folder st2 tok nt fid =
        (.err "Not logged in", st2))) := by
  refine ⟨?_, ?_, ?_, ?_, ?_, ?_⟩
  · -- the token maps to the logged-in username
    unfold NoteDatabaseSystem.login_user at hlog ⊢
    split_ifs at hlog ⊢ with h1 h2 h3 h4
    simp [lookupSession]
  · -- the token validates to the id of that user
    unfold NoteDatabaseSystem.login_user at hlog ⊢
    split_ifs at hlog ⊢ with h1 h2 h3 h4
    dsimp only
    unfold NoteDatabase.verify_user at h4
    cases hf : st.db.users.find? (fun u => decide (u.username = pyStrip username)) with
    | none => rw [hf] at h4; simp at h4
    | some u =>
      have hu := List.mem_of_find?_eq_some hf
      have hupos := hids u hu
      refine ⟨u.id, ?_, ?_⟩
      · unfold NoteDatabaseSystem.validate_session
        have hl : lookupSession ((tok, pyStrip username) :: st.active_sessions) tok =
            some (pyStrip username) := by simp [lookupSession]
        rw [hl]
        dsimp only
        unfold NoteDatabase.get_user_id
        rw [hf]
        simp only [Option.map_some']
        rw [if_neg (by omega)]
      · unfold NoteDatabase.get_user_id
        rw [hf]
        rfl
  · -- validated sessions proceed into the operation bodies
    intro st2 sid uid hval
    refine ⟨?_, ?_, ?_, ?_, ?_, ?_, ?_, ?_, ?_, ?_, ?_, ?_, ?_, ?_, ?_, ?_⟩ <;>
      first
        | (intro a b c
           simp only [NoteDatabaseSystem.create_note, NoteDatabaseSystem.edit_note,
             NoteDatabaseSystem.update_note_title, NoteDatabaseSystem.create_folder,
             NoteDatabaseSystem.withAuth, hval])
        | (intro a b c d e f g
           simp only [NoteDatabaseSystem.create_todo, NoteDatabaseSystem.withAuth, hval])
        | (intro a b c d
           simp only [NoteDatabaseSystem.list_todos, NoteDatabaseSystem.withAuth, hval])
        | (intro a b
           simp only [NoteDatabaseSystem.add_tags, NoteDatabaseSystem.link_note_to_folder,
             NoteDatabaseSystem.withAuth, hval])
        | (intro a
           simp only [NoteDatabaseSystem.get_note, NoteDatabaseSystem.list_notes,
             NoteDatabaseSystem.delete_note, NoteDatabaseSystem.search_notes,
             NoteDatabaseSystem.toggle_todo, NoteDatabaseSystem.delete_todo,
             NoteDatabaseSystem.withAuth, hval])
        | (simp only [NoteDatabaseSystem.get_stats, NoteDatabaseSystem.get_user_folders,
             NoteDatabaseSystem.withAuth, hval])
  · -- a token absent from the session map never validates
    intro st2 hnone
    unfold NoteDatabaseSystem.validate_session
    rw [hnone]
  · -- after logout the token no longer validates
    intro st2
    by_cases hs : (lookupSession st2.active_sessions tok).isSome = true
    · have hfil : (NoteDatabaseSystem.logout_user st2 tok).2.active_sessions =
          st2.active_sessions.filter (fun p => !decide (p.1 = tok)) := by
        unfold NoteDatabaseSystem.logout_user
        rw [if_pos hs]
      unfold NoteDatabaseSystem.validate_session
      rw [hfil, lookupSession_filter_eq_none]
    · have hsame : (NoteDatabaseSystem.logout_user st2 tok).2 = st2 := by
        unfold NoteDatabaseSystem.logout_user
        rw [if_neg hs]
      have hnone : lookupSession st2.active_sessions tok = none := by
        cases h : lookupSession st2.active_sessions tok
        · rfl
        · rw [h] at hs
          simp at hs
      unfold NoteDatabaseSystem.validate_session
      rw [hsame, hnone]
  · -- a token that does not validate is rejected by every operation
    intro st2 hvn
    refine ⟨?_, ?_, ?_, ?_, ?_, ?_, ?_, ?_, ?_, ?_, ?_, ?_, ?_, ?_, ?_, ?_⟩ <;>
      first
        | (intro a b c
           simp only [NoteDatabaseSystem.create_note, NoteDatabaseSystem.edit_note,
             NoteDatabaseSystem.update_note_title, NoteDatabaseSystem.create_folder,
             NoteDatabaseSystem.withAuth, hvn])
        | (intro a b c d e f g
           simp only [NoteDatabaseSystem.create_todo, NoteDatabaseSystem.withAuth, hvn])
        | (intro a b c d
           simp only [NoteDatabaseSystem.list_todos, NoteDatabaseSystem.withAuth, hvn])
        | (intro a b
           simp only [NoteDatabaseSystem.add_tags, NoteDatabaseSystem.link_note_to_folder,
             NoteDatabaseSystem.withAuth, hvn])
        | (intro a
           simp only [NoteDatabaseSystem.get_note, NoteDatabaseSystem.list_notes,
             NoteDatabaseSystem.delete_note, NoteDatabaseSystem.search_notes,
             NoteDatabaseSystem.toggle_todo, NoteDatabaseSystem.delete_todo,
             NoteDatabaseSystem.withAuth, hvn])
        | (simp only [NoteDatabaseSystem.get_stats, NoteDatabaseSystem.get_user_folders,
             NoteDatabaseSystem.withAuth, hvn])

def wUser : UserRow := { id := 1, username := "alice", password_hash := ⟨"pw"⟩, created_at := 0 }

def wSys0 : SysState := { db := { users := [wUser] } }

/-- Witness for C3 at a concrete state, token and credentials. -/
theorem c3_witness :
    (∀ u ∈ wSys0.db.users, 0 < u.id) ∧
    (NoteDatabaseSystem.login_user wSys0 "t" "alice" "pw").1 = .ok "t" ∧
    ∃ uid, NoteDatabaseSystem.validate_session
        (NoteDatabaseSystem.login_user wSys0 "t" "alice" "pw").2 "t" = some uid ∧
      NoteDatabase.get_user_id wSys0.db (pyStrip "alice") = some uid :=
  ⟨by decide, by decide,
    (c3_session_lifecycle wSys0 "t" "alice" "pw" (by decide) (by decide)).2.1⟩

/-! ## Claim C4 helpers -/

theorem ensureTag_note_tags (db : DB) (name : String) :
    (NoteDatabase.ensureTag db name).note_tags = db.note_tags := by
  unfold NoteDatabase.ensureTag
  split <;> rfl

theorem ensureTag_notes (db : DB) (name : String) :
    (NoteDatabase.ensureTag db name).notes = db.notes := by
  unfold NoteDatabase.ensureTag
  split <;> rfl

theorem ensureTag_of_found (db : DB) (name : String) (trow : TagRow)
    (h : db.tags.find? (fun t => decide (t.name = name)) = some trow) :
    NoteDatabase.ensureTag db name = db := by
  unfold NoteDatabase.ensureTag
  rw [if_pos]
  exact List.any_eq_true.mpr ⟨trow, List.mem_of_find?_eq_some h, by simpa using List.find?_some h⟩

theorem ensureTag_find (db : DB) (name : String) :
    ∃ trow, (NoteDatabase.ensureTag db name).tags.find? (fun t => decide (t.name = name)) =
      some trow ∧ trow.name = name := by
  by_cases hc : (db.tags.any fun t => decide (t.name = name)) = true
  · obtain ⟨x, hx, hpx⟩ := List.any_eq_true.mp hc
    have hs : (db.tags.find? fun t => decide (t.name = name)).isSome :=
      List.find?_isSome.mpr ⟨x, hx, hpx⟩
    obtain ⟨trow, ht⟩ := Option.isSome_iff_exists.mp hs
    have hname : trow.name = name := by simpa using List.find?_some ht
    refine ⟨trow, ?_, hname⟩
    unfold NoteDatabase.ensureTag
    rw [if_pos hc]
    exact ht
  · have hnone : db.tags.find? (fun t => decide (t.name = name)) = none := by
      rw [List.find?_eq_none]
      intro x hx
      intro hpx
      exact hc (List.any_eq_true.mpr ⟨x, hx, hpx⟩)
    refine ⟨⟨db.next_tag_id, name⟩, ?_, rfl⟩
    unfold NoteDatabase.ensureTag
    rw [if_neg hc]
    dsimp only
    rw [List.find?_append, hnone]
    simp

theorem ensureTag_wf_tags (db : DB) (name : String)
    (hlt : ∀ t ∈ db.tags, t.id < db.next_tag_id)
    (hid : (db.tags.map TagRow.id).Nodup)
    (hname : (db.tags.map TagRow.name).Nodup) :
    (∀ t ∈ (NoteDatabase.ensureTag db name).tags,
        t.id < (NoteDatabase.ensureTag db name).next_tag_id) ∧
    ((NoteDatabase.ensureTag db name).tags.map TagRow.id).Nodup ∧
    ((NoteDatabase.ensureTag db name).tags.map TagRow.name).Nodup := by
  unfold NoteDatabase.ensureTag
  by_cases hc : (db.tags.any fun t => decide (t.name = name)) = true
  · rw [if_pos hc]
    exact ⟨hlt, hid, hname⟩
  · rw [if_neg hc]
    dsimp only
    have hnmem : name ∉ db.tags.map TagRow.name := by
      intro hmem
      obtain ⟨x, hx, hxn⟩ := List.mem_map.mp hmem
      exact hc (List.any_eq_true.mpr ⟨x, hx, by simp [hxn]⟩)
    refine ⟨?_, ?_, ?_⟩
    · intro t ht
      rcases List.mem_append.mp ht with ht | ht
      · exact Nat.lt_trans (hlt t ht) (Nat.lt_succ_self _)
      · simp only [List.mem_singleton] at ht
        rw [ht]
        exact Nat.lt_succ_self _
    · rw [List.map_append, List.nodup_append]
      refine ⟨hid, List.nodup_singleton _, ?_⟩
      intro x hx hy
      simp only [List.map_cons, List.map_nil, List.mem_singleton] at hy
      subst hy
      obtain ⟨t, ht, hxt⟩ := List.mem_map.mp hx
      have := hlt t ht
      omega
    · rw [List.map_append, List.nodup_append]
      refine ⟨hname, List.nodup_singleton _, ?_⟩
      intro x hx hy
      simp only [List.map_cons, List.map_nil, List.mem_singleton] at hy
      subst hy
      exact hnmem hx

theorem addOneTag_eq (nid : Nat) (db : DB) (name : String) (trow : TagRow)
    (hf : (NoteDatabase.ensureTag db name).tags.find? (fun t => decide (t.name = name)) =
      some trow) :
    NoteDatabase.addOneTag nid db name =
      some (if (NoteDatabase.ensureTag db name).note_tags.any
              (fun nt => decide (nt.note_id = nid ∧ nt.tag_id = trow.id)) then
              NoteDatabase.ensureTag db name
            else { NoteDatabase.ensureTag db name with
                   note_tags := (NoteDatabase.ensureTag db name).note_tags ++
                     [{ note_id := nid, tag_id := trow.id }] }) := by
  unfold NoteDatabase.addOneTag
  dsimp only
  rw [hf, Option.map_some']

/-! ## Claim C4 -/

/-- Repeated application of add_note_tags, keeping only the state. -/
def iterAddTags (u : Nat) (X : String) (ts : List String) : Nat → DB → DB
  | 0, db => db
  | k + 1, db => iterAddTags u X ts k (NoteDatabase.add_note_tags db u X ts).2

/-- C4: tagging is idempotent and deduplicating. For a note with no tag
links yet, add_note_tags with the list [a, a, b] (a and b distinct names)
returns the complete deduplicated tag list [a, b]; a second call returns
the same list and leaves the state fixed, hence any positive number of
calls produces the same state; the note ends with tag set exactly [a, b],
no duplicate links and no duplicate tag rows. -/
theorem c4_add_tags_idempotent (db : DB) (u : Nat) (X a b : String) (n : NoteRow)
    (hwf : WF db) (hab : a ≠ b)
    (hfind : db.notes.find? (fun r => decide (r.user_id = u ∧ r.title = X)) = some n)
    (hnolinks : ∀ nt ∈ db.note_tags, nt.note_id ≠ n.id) :
    (NoteDatabase.add_note_tags db u X [a, a, b]).1 = some [a, b] ∧
    NoteDatabase.add_note_tags
        (NoteDatabase.add_note_tags db u X [a, a, b]).2 u X [a, a, b] =
      (some [a, b], (NoteDatabase.add_note_tags db u X [a, a, b]).2) ∧
    (∀ k, iterAddTags u X [a, a, b] (k + 1) db =
      (NoteDatabase.add_note_tags db u X [a, a, b]).2) ∧
    NoteDatabase.noteTags (NoteDatabase.add_note_tags db u X [a, a, b]).2 n.id = [a, b] ∧
    ((NoteDatabase.add_note_tags db u X [a, a, b]).2.note_tags.filter
        (fun nt => decide (nt.note_id = n.id))).Nodup ∧
    ((NoteDatabase.add_note_tags db u X [a, a, b]).2.tags.map TagRow.name).Nodup := by
  obtain ⟨-, -, hTagLt, hTagIdN, hTagNameN, -, -⟩ := hwf
  -- first tag occurrence of a
  obtain ⟨ra, hfa, hra⟩ := ensureTag_find db a
  set A := NoteDatabase.ensureTag db a with hA
  have hAnt : A.note_tags = db.note_tags := ensureTag_note_tags db a
  have hAn : A.notes = db.notes := ensureTag_notes db a
  have hlinkA : (A.note_tags.any fun nt =>
      decide (nt.note_id = n.id ∧ nt.tag_id = ra.id)) = false := by
    rw [hAnt, List.any_eq_false]
    intro nt hnt
    simp only [decide_eq_true_eq, not_and]
    intro h1
    exact absurd h1 (hnolinks nt hnt)
  have hlinkA' : ¬((A.note_tags.any fun nt =>
      decide (nt.note_id = n.id ∧ nt.tag_id = ra.id)) = true) := by
    rw [hlinkA]
    simp
  have h1 := addOneTag_eq n.id db a ra hfa
  rw [if_neg hlinkA'] at h1
  set S1 : DB := { A with note_tags := A.note_tags ++ [{ note_id := n.id, tag_id := ra.id }] }
    with hS1
  -- second occurrence of a is a no-op
  have hS1tags : S1.tags = A.tags := rfl
  have hS1nt : S1.note_tags = A.note_tags ++ [{ note_id := n.id, tag_id := ra.id }] := rfl
  have hfS1a : S1.tags.find? (fun t => decide (t.name = a)) = some ra := by
    rw [hS1tags]
    exact hfa
  have hensS1 : NoteDatabase.ensureTag S1 a = S1 := ensureTag_of_found S1 a ra hfS1a
  have hmemA : ({ note_id := n.id, tag_id := ra.id } : NoteTagRow) ∈ S1.note_tags := by
    rw [hS1nt]
    exact List.mem_append_right _ (List.mem_singleton_self _)
  have hlinkS1 : ((NoteDatabase.ensureTag S1 a).note_tags.any fun nt =>
      decide (nt.note_id = n.id ∧ nt.tag_id = ra.id)) = true := by
    rw [hensS1, List.any_eq_true]
    exact ⟨_, hmemA, by simp⟩
  have h2 := addOneTag_eq n.id S1 a ra (by rw [hensS1]; exact hfS1a)
  rw [if_pos hlinkS1, hensS1] at h2
  -- the tag b
  obtain ⟨rb, hfb, hrb⟩ := ensureTag_find S1 b
  set B := NoteDatabase.ensureTag S1 b with hB
  have hBnt : B.note_tags = S1.note_tags := ensureTag_note_tags S1 b
  have hBn : B.notes = db.notes := by rw [ensureTag_notes S1 b]; exact hAn
  have hAwf := ensureTag_wf_tags db a hTagLt hTagIdN hTagNameN
  have hS1wf1 : ∀ t ∈ S1.tags, t.id < S1.next_tag_id := hAwf.1
  have hBwf := ensureTag_wf_tags S1 b hS1wf1 hAwf.2.1 hAwf.2.2
  obtain ⟨extB, hextB, -⟩ := (ensureTag_tagStep 0 S1 b).tags_ext
  have hraA : ra ∈ A.tags := List.mem_of_find?_eq_some hfa
  have hraB : ra ∈ B.tags := by
    rw [hextB]
    exact List.mem_append_left _ hraA
  have hrbB : rb ∈ B.tags := List.mem_of_find?_eq_some hfb
  have hrab : ra.id ≠ rb.id := by
    intro he
    have heq : ra = rb := List.inj_on_of_nodup_map hBwf.2.1 hraB hrbB he
    rw [heq, hrb] at hra
    exact hab hra.symm
  have hlinkB : ¬((B.note_tags.any fun nt =>
      decide (nt.note_id = n.id ∧ nt.tag_id = rb.id)) = true) := by
    rw [hBnt, hS1nt, hAnt]
    simp only [List.any_eq_true, not_exists]
    rintro nt ⟨hnt, hd⟩
    simp only [decide_eq_true_eq] at hd
    rcases List.mem_append.mp hnt with hnt | hnt
    · exact hnolinks nt hnt hd.1
    · simp only [List.mem_singleton] at hnt
      rw [hnt] at hd
      exact hrab hd.2
  have h3 := addOneTag_eq n.id S1 b rb hfb
  rw [if_neg hlinkB] at h3
  set S2 : DB := { B with note_tags := B.note_tags ++ [{ note_id := n.id, tag_id := rb.id }] }
    with hS2
  have hS2tags : S2.tags = B.tags := rfl
  have hS2nt : S2.note_tags = db.note_tags ++
      [{ note_id := n.id, tag_id := ra.id }, { note_id := n.id, tag_id := rb.id }] := by
    show B.note_tags ++ [{ note_id := n.id, tag_id := rb.id }] = _
    rw [hBnt, hS1nt, hAnt, List.append_assoc]
    rfl
  have hS2n : S2.notes = db.notes := hBn
  -- the fold over [a, a, b]
  have hfold : List.foldlM (NoteDatabase.addOneTag n.id) db [a, a, b] = some S2 := by
    rw [List.foldlM_cons, h1, Option.bind_eq_bind, Option.some_bind,
      List.foldlM_cons, h2, Option.bind_eq_bind, Option.some_bind,
      List.foldlM_cons, h3, Option.bind_eq_bind, Option.some_bind,
      List.foldlM_nil]
    rfl
  have hmain : NoteDatabase.add_note_tags db u X [a, a, b] =
      (some (NoteDatabase.noteTags S2 n.id), S2) := by
    unfold NoteDatabase.add_note_tags
    rw [hfind]
    dsimp only
    rw [hfold]
  -- the tag list of the note after the call
  have hfilter : S2.note_tags.filter (fun nt => decide (nt.note_id = n.id)) =
      [{ note_id := n.id, tag_id := ra.id }, { note_id := n.id, tag_id := rb.id }] := by
    rw [hS2nt, List.filter_append]
    have hnil : db.note_tags.filter (fun nt => decide (nt.note_id = n.id)) = [] := by
      rw [List.filter_eq_nil_iff]
      intro nt hnt
      simp only [decide_eq_true_eq]
      exact hnolinks nt hnt
    rw [hnil]
    simp
  have hfindra : S2.tags.find? (fun t => decide (t.id = ra.id)) = some ra := by
    rw [hS2tags]
    exact find?_eq_of_nodup_key TagRow.id B.tags ra hBwf.2.1 hraB
  have hfindrb : S2.tags.find? (fun t => decide (t.id = rb.id)) = some rb := by
    rw [hS2tags]
    exact find?_eq_of_nodup_key TagRow.id B.tags rb hBwf.2.1 hrbB
  have hnotetags : NoteDatabase.noteTags S2 n.id = [a, b] := by
    unfold NoteDatabase.noteTags
    rw [hfilter]
    simp [hfindra, hfindrb, hra, hrb]
  -- the second call is the identity
  have hfindS2 : S2.notes.find? (fun r => decide (r.user_id = u ∧ r.title = X)) = some n := by
    rw [hS2n]
    exact hfind
  have hfS2a : S2.tags.find? (fun t => decide (t.name = a)) = some ra := by
    rw [hS2tags, hextB, List.find?_append]
    rw [show S1.tags.find? (fun t => decide (t.name = a)) = some ra from hfS1a]
    rfl
  have hens2a : NoteDatabase.ensureTag S2 a = S2 := ensureTag_of_found S2 a ra hfS2a
  have hmemra2 : ({ note_id := n.id, tag_id := ra.id } : NoteTagRow) ∈ S2.note_tags := by
    rw [hS2nt]
    exact List.mem_append_right _ (by simp)
  have hmemrb2 : ({ note_id := n.id, tag_id := rb.id } : NoteTagRow) ∈ S2.note_tags := by
    rw [hS2nt]
    exact List.mem_append_right _ (by simp)
  have g1 : NoteDatabase.addOneTag n.id S2 a = some S2 := by
    have g := addOneTag_eq n.id S2 a ra (by rw [hens2a]; exact hfS2a)
    rw [hens2a, if_pos (List.any_eq_true.mpr ⟨_, hmemra2, by simp⟩)] at g
    exact g
  have hfS2b : S2.tags.find? (fun t => decide (t.name = b)) = some rb := hfb
  have hens2b : NoteDatabase.ensureTag S2 b = S2 := ensureTag_of_found S2 b rb hfS2b
  have g3 : NoteDatabase.addOneTag n.id S2 b = some S2 := by
    have g := addOneTag_eq n.id S2 b rb (by rw [hens2b]; exact hfS2b)
    rw [hens2b, if_pos (List.any_eq_true.mpr ⟨_, hmemrb2, by simp⟩)] at g
    exact g
  have hfold2 : List.foldlM (NoteDatabase.addOneTag n.id) S2 [a, a, b] = some S2 := by
    rw [List.foldlM_cons, g1, Option.bind_eq_bind, Option.some_bind,
      List.foldlM_cons, g1, Option.bind_eq_bind, Option.some_bind,
      List.foldlM_cons, g3, Option.bind_eq_bind, Option.some_bind,
      List.foldlM_nil]
    rfl
  have hmain2 : NoteDatabase.add_note_tags S2 u X [a, a, b] =
      (some (NoteDatabase.noteTags S2 n.id), S2) := by
    unfold NoteDatabase.add_note_tags
    rw [hfindS2]
    dsimp only
    rw [hfold2]
  refine ⟨by rw [hmain, hnotetags], ?_, ?_, ?_, ?_, ?_⟩
  · rw [hmain]
    dsimp only
    rw [hmain2, hnotetags]
  · intro k
    rw [hmain]
    dsimp only
    have hstable : ∀ j, iterAddTags u X [a, a, b] j S2 = S2 := by
      intro j
      induction j with
      | zero => rfl
      | succ j ih =>
        show iterAddTags u X [a, a, b] j (NoteDatabase.add_note_tags S2 u X [a, a, b]).2 = S2
        rw [hmain2]
        exact ih
    show iterAddTags u X [a, a, b] k (NoteDatabase.add_note_tags db u X [a, a, b]).2 = S2
    rw [hmain]
    exact hstable k
  · rw [hmain]
    dsimp only
    exact hnotetags
  · rw [hmain]
    dsimp only
    rw [hfilter]
    simp [hrab]
  · rw [hmain]
    dsimp only
    rw [hS2tags]
    exact hBwf.2.2

/-- Witness for C4 at a concrete database, note and tag names. -/
theorem c4_witness :
    WF wDB1 ∧ "a" ≠ "b" ∧
    (wDB1.notes.find? (fun r => decide (r.user_id = 5 ∧ r.title = "T")) = some wNote) ∧
    (NoteDatabase.add_note_tags wDB1 5 "T" ["a", "a", "b"]).1 = some ["a", "b"] ∧
    NoteDatabase.noteTags (NoteDatabase.add_note_tags wDB1 5 "T" ["a", "a", "b"]).2 wNote.id =
      ["a", "b"] :=
  ⟨by constructor <;> decide, by decide, by decide,
    (c4_add_tags_idempotent wDB1 5 "T" "a" "b" wNote (by constructor <;> decide) (by decide)
      (by decide) (by decide)).1,
    (c4_add_tags_idempotent wDB1 5 "T" "a" "b" wNote (by constructor <;> decide) (by decide)
      (by decide) (by decide)).2.2.2.1⟩

/-! ## Claim C7: semantics of the LIKE search -/

/-- ASCII lower casing of a character list. -/
def lowerList (l : List Char) : List Char := l.map lowerChar

/-- The spec predicate for search, stated from the spec words: the query
occurs as a case-insensitive substring of the text. -/
def ciOccurs (q s : String) : Prop := lowerList q.data <:+: lowerList s.data

instance (q s : String) : Decidable (ciOccurs q s) :=
  List.decidableInfix (lowerList q.data) (lowerList s.data)

theorem likeMatch_pct (ps s : List Char) :
    likeMatch ('%' :: ps) s = s.tails.any (fun b => likeMatch ps b) := by
  simp only [likeMatch]
  simp

theorem likeMatch_lit (q : List Char) (hq : ∀ c ∈ q, c ≠ '%' ∧ c ≠ '_') (s : List Char) :
    (likeMatch q s = true ↔ lowerList q = lowerList s) := by
  induction q generalizing s with
  | nil => cases s <;> simp [likeMatch, lowerList]
  | cons p ps ih =>
    have hp := hq p (List.mem_cons_self p ps)
    have hq2 : ∀ c ∈ ps, c ≠ '%' ∧ c ≠ '_' := fun c hc => hq c (List.mem_cons_of_mem p hc)
    cases s with
    | nil =>
      simp only [likeMatch]
      rw [if_neg hp.1]
      simp [lowerList]
    | cons c cs =>
      simp only [likeMatch]
      rw [if_neg hp.1]
      simp only [if_neg hp.2, Bool.and_eq_true, decide_eq_true_eq, lowerList, List.map_cons,
        List.cons.injEq]
      exact and_congr Iff.rfl (by simpa [lowerList] using ih hq2 cs)

theorem likeMatch_lit_pct (q : List Char) (hq : ∀ c ∈ q, c ≠ '%' ∧ c ≠ '_') (s : List Char) :
    (likeMatch (q ++ ['%']) s = true ↔ lowerList q <+: lowerList s) := by
  induction q generalizing s with
  | nil =>
    simp only [List.nil_append, lowerList, List.map_nil]
    rw [likeMatch_pct]
    constructor
    · intro _
      simp
    · intro _
      rw [List.any_eq_true]
      refine ⟨[], (List.mem_tails _ _).mpr List.nil_suffix, by simp [likeMatch]⟩
  | cons p ps ih =>
    have hp := hq p (List.mem_cons_self p ps)
    have hq2 : ∀ c ∈ ps, c ≠ '%' ∧ c ≠ '_' := fun c hc => hq c (List.mem_cons_of_mem p hc)
    cases s with
    | nil =>
      rw [List.cons_append]
      simp only [likeMatch]
      rw [if_neg hp.1]
      simp [lowerList]
    | cons c cs =>
      rw [List.cons_append]
      simp only [likeMatch]
      rw [if_neg hp.1]
      simp only [if_neg hp.2, Bool.and_eq_true, decide_eq_true_eq, lowerList, List.map_cons,
        List.cons_prefix_cons]
      exact and_congr Iff.rfl (by simpa [lowerList] using ih hq2 cs)

theorem likeMatch_wrap (q s : List Char) (hq : ∀ c ∈ q, c ≠ '%' ∧ c ≠ '_') :
    (likeMatch ('%' :: (q ++ ['%'])) s = true ↔ lowerList q <:+: lowerList s) := by
  rw [likeMatch_pct, List.any_eq_true]
  constructor
  · rintro ⟨b, hbmem, hbm⟩
    have hbsuf : b <:+ s := (List.mem_tails _ _).mp hbmem
    obtain ⟨u, hu⟩ := hbsuf
    have hsufmap : lowerList b <:+ lowerList s :=
      ⟨lowerList u, by rw [lowerList, lowerList, lowerList, ← List.map_append, hu]⟩
    exact List.infix_iff_prefix_suffix.mpr
      ⟨lowerList b, (likeMatch_lit_pct q hq b).mp hbm, hsufmap⟩
  · intro hinf
    obtain ⟨t, hpre, hsuf⟩ := List.infix_iff_prefix_suffix.mp hinf
    obtain ⟨u, hu⟩ := hsuf
    have hbt : lowerList (s.drop u.length) = t := by
      rw [lowerList, List.map_drop]
      rw [show List.map lowerChar s = lowerList s from rfl, ← hu, List.drop_left]
    refine ⟨s.drop u.length, (List.mem_tails _ _).mpr (List.drop_suffix _ _),
      (likeMatch_lit_pct q hq _).mpr ?_⟩
    rw [hbt]
    exact hpre

theorem sqlLike_wrap (q s : String) (hq : ∀ c ∈ q.data, c ≠ '%' ∧ c ≠ '_') :
    (sqlLike ("%" ++ q ++ "%") s = true ↔ ciOccurs q s) := by
  have hpat : ("%" ++ q ++ "%").data = '%' :: (q.data ++ ['%']) := by
    rw [String.data_append, String.data_append]
    rfl
  rw [sqlLike, hpat]
  exact likeMatch_wrap q.data s.data hq

/-- C7 (amended): for a query containing no LIKE wildcard character
(percent or underscore), search_user_notes returns exactly the notes of
the user whose title or content contains the query as a case-insensitive
substring, ordered by modified_at descending and nothing else. For queries
containing wildcard characters the claim fails (see the counterexample):
the characters act as LIKE wildcards instead of literal text. -/
theorem c7_search_substring_semantics (db : DB) (u : Nat) (q : String)
    (hq : ∀ c ∈ q.data, c ≠ '%' ∧ c ≠ '_') :
    (∀ v, v ∈ NoteDatabase.search_user_notes db u q ↔
      ∃ n ∈ db.notes, n.user_id = u ∧ (ciOccurs q n.title ∨ ciOccurs q n.content) ∧
        v = { id := n.id, title := n.title, content := n.content,
              created_at := n.created_at, modified_at := n.modified_at }) ∧
    (NoteDatabase.search_user_notes db u q).Pairwise
      (fun x y => y.modified_at ≤ x.modified_at) := by
  have hlike : ∀ s : String, (sqlLike ("%" ++ q ++ "%") s = true ↔ ciOccurs q s) :=
    fun s => sqlLike_wrap q s hq
  constructor
  · intro v
    unfold NoteDatabase.search_user_notes
    dsimp only
    rw [List.mem_map]
    constructor
    · rintro ⟨n, hn, hview⟩
      have hn2 := (mem_sortDescBy _ n _).mp hn
      obtain ⟨hmem, hpred⟩ := List.mem_filter.mp hn2
      rw [Bool.and_eq_true] at hpred
      obtain ⟨hu1, hmatch⟩ := hpred
      rw [Bool.or_eq_true] at hmatch
      refine ⟨n, hmem, by simpa using hu1, ?_, hview.symm⟩
      rcases hmatch with h | h
      · exact Or.inl ((hlike n.title).mp h)
      · exact Or.inr ((hlike n.content).mp h)
    · rintro ⟨n, hmem, hu1, hocc, hveq⟩
      refine ⟨n, ?_, hveq.symm⟩
      rw [mem_sortDescBy, List.mem_filter]
      refine ⟨hmem, ?_⟩
      rw [Bool.and_eq_true, Bool.or_eq_true]
      refine ⟨by simpa using hu1, ?_⟩
      rcases hocc with h | h
      · exact Or.inl ((hlike n.title).mpr h)
      · exact Or.inr ((hlike n.content).mpr h)
  · unfold NoteDatabase.search_user_notes
    dsimp only
    refine List.Pairwise.map _ ?_ (pairwise_sortDescBy _ _)
    intro a b hab2
    exact hab2

def wDB7 : DB :=
  { notes := [{ id := 1, user_id := 7, title := "A", content := "B", created_at := 0,
                modified_at := 0, reminder_date := none }],
    next_note_id := 2 }

/-- Counterexample to C7 as stated: with the query consisting of a single
underscore, the underscore acts as a LIKE wildcard, so the search returns a
note although the query does not occur as a (case-insensitive) substring of
its title or content. -/
theorem c7_counterexample :
    NoteDatabase.search_user_notes wDB7 7 "_" =
      [{ id := 1, title := "A", content := "B", created_at := 0, modified_at := 0 }] ∧
    ¬ciOccurs "_" "A" ∧ ¬ciOccurs "_" "B" :=
  ⟨by rfl, by decide, by decide⟩

/-- Witness for the amended C7 at a concrete database and query. -/
theorem c7_witness :
    (∀ c ∈ ("P" : String).data, c ≠ '%' ∧ c ≠ '_') ∧
    (NoteDatabase.search_user_notes wDB7 7 "P").Pairwise
      (fun x y => y.modified_at ≤ x.modified_at) :=
  ⟨by decide, (c7_search_substring_semantics wDB7 7 "P" (by decide)).2⟩

/-! ## Claim C8 -/

/-- C8: preview truncation in the note listing. Every entry returned by the
facade list_notes carries a preview computed from the note content: for
content longer than 100 characters the preview is exactly the first 100
characters followed by the ellipsis marker, for content of at most 100
characters it is the content itself with no marker. The entry type
(NoteListEntry) has no content field at all, modelling the deletion of the
content key from each dictionary. -/
theorem c8_preview_truncation (st : SysState) (sid : String) (uid limit : Nat)
    (hv : NoteDatabaseSystem.validate_session st sid = some uid) :
    ∃ entries, NoteDatabaseSystem.list_notes st sid limit = (.ok entries, st) ∧
      ∀ e ∈ entries, ∃ n ∈ st.db.notes, n.user_id = uid ∧
        e.preview = NoteDatabaseSystem.previewN 100 n.content ∧
        (100 < n.content.data.length →
          e.preview = ⟨n.content.data.take 100 ++ "...".data⟩ ∧
          (n.content.data.take 100).length = 100) ∧
        (n.content.data.length ≤ 100 → e.preview = n.content) := by
  refine ⟨(NoteDatabase.get_user_notes st.db uid limit).map (fun n =>
    { id := n.id, title := n.title, created_at := n.created_at, modified_at := n.modified_at,
      tags := n.tags, preview := NoteDatabaseSystem.previewN 100 n.content }), ?_, ?_⟩
  · unfold NoteDatabaseSystem.list_notes NoteDatabaseSystem.withAuth
    rw [hv]
    rfl
  · intro e he
    rw [List.mem_map] at he
    obtain ⟨v, hvmem, hve⟩ := he
    unfold NoteDatabase.get_user_notes at hvmem
    rw [List.mem_map] at hvmem
    obtain ⟨n, hn, hnv⟩ := hvmem
    have hn2 : n ∈ sortDescBy (fun n => n.modified_at)
        (st.db.notes.filter (fun n => decide (n.user_id = uid))) := List.take_subset _ _ hn
    obtain ⟨hmem, hpred⟩ := List.mem_filter.mp ((mem_sortDescBy _ n _).mp hn2)
    refine ⟨n, hmem, by simpa using hpred, ?_, ?_, ?_⟩
    · rw [← hve, ← hnv]
    · intro hlong
      constructor
      · rw [← hve, ← hnv]
        show NoteDatabaseSystem.previewN 100 n.content = _
        unfold NoteDatabaseSystem.previewN
        rw [if_pos hlong]
      · rw [List.length_take]
        omega
    · intro hshort
      rw [← hve, ← hnv]
      show NoteDatabaseSystem.previewN 100 n.content = n.content
      unfold NoteDatabaseSystem.previewN
      rw [if_neg (by omega), List.append_nil, List.take_of_length_le hshort]

def wNote5 : NoteRow :=
  { id := 1, user_id := 1, title := "N", content := "hello", created_at := 0,
    modified_at := 0, reminder_date := none }

def wSys1 : SysState :=
  { db := { users := [wUser], notes := [wNote5], next_user_id := 2, next_note_id := 2 },
    active_sessions := [("s", "alice")] }

/-- Witness for C8 at a concrete state. -/
theorem c8_witness :
    NoteDatabaseSystem.validate_session wSys1 "s" = some 1 ∧
    ∃ entries, NoteDatabaseSystem.list_notes wSys1 "s" 50 = (.ok entries, wSys1) ∧
      ∀ e ∈ entries, ∃ n ∈ wSys1.db.notes, n.user_id = 1 ∧
        e.preview = NoteDatabaseSystem.previewN 100 n.content ∧
        (100 < n.content.data.length →
          e.preview = ⟨n.content.data.take 100 ++ "...".data⟩ ∧
          (n.content.data.take 100).length = 100) ∧
        (n.content.data.length ≤ 100 → e.preview = n.content) :=
  ⟨by decide, c8_preview_truncation wSys1 "s" 1 50 (by decide)⟩

/-! ## Claim C6 -/

/-- Counterexample to C6 as stated: a create_todo call with the invalid
priority value urgent is NOT rejected as a validation error; it succeeds
and a todo row IS stored (with the priority silently replaced by normal). -/
theorem c6_counterexample :
    (NoteDatabaseSystem.create_todo wSys1 9 "s" "Task" "" none "urgent" [] none).1 =
      .ok (some 1) ∧
    (NoteDatabaseSystem.create_todo wSys1 9 "s" "Task" "" none "urgent" [] none).2.db.todos =
      [{ id := 1, user_id := 1, title := "Task", description := "", due_date := none,
         priority := "normal", completed := false, created_at := 9, note_id := none }] := by
  constructor <;> rfl

/-- C6 (amended): an authenticated create_todo call with a priority outside
low, normal, high is not reported as a validation error: the facade
silently replaces the priority with normal and stores the todo, and the
call succeeds with the new id. -/
theorem c6_amended_priority_coerced (st : SysState) (now : Nat) (sid : String) (uid : Nat)
    (title desc : String) (due : Option String) (priority : String)
    (hv : NoteDatabaseSystem.validate_session st sid = some uid)
    (ht : ¬(pyStrip title = ""))
    (hp : priority ≠ "low" ∧ priority ≠ "normal" ∧ priority ≠ "high") :
    NoteDatabaseSystem.create_todo st now sid title desc due priority [] none =
      (.ok (some st.db.next_todo_id),
       { st with db := { st.db with
           todos := st.db.todos ++
             [{ id := st.db.next_todo_id, user_id := uid, title := pyStrip title,
                description := pyStrip desc, due_date := due, priority := "normal",
                completed := false, created_at := now, note_id := none }],
           next_todo_id := st.db.next_todo_id + 1 } }) := by
  have hprio : (if priority = "low" ∨ priority = "normal" ∨ priority = "high"
      then priority else "normal") = "normal" := by
    rw [if_neg]
    rintro (h | h | h)
    exacts [hp.1 h, hp.2.1 h, hp.2.2 h]
  unfold NoteDatabaseSystem.create_todo NoteDatabaseSystem.withAuth
  rw [hv]
  dsimp only
  unfold NoteDatabaseSystem.create_todo_body
  rw [if_neg ht]
  dsimp only
  rw [hprio]
  unfold NoteDatabase.create_todo
  dsimp only
  rw [if_neg (by simp)]

/-- Witness for the amended C6 at a concrete state. -/
theorem c6_amended_witness :
    NoteDatabaseSystem.validate_session wSys1 "s" = some 1 ∧ ¬(pyStrip "Task" = "") ∧
    ("urgent" ≠ "low" ∧ "urgent" ≠ "normal" ∧ "urgent" ≠ "high") ∧
    NoteDatabaseSystem.create_todo wSys1 9 "s" "Task" "" none "urgent" [] none =
      (.ok (some 1),
       { wSys1 with db := { wSys1.db with
           todos := [{ id := 1, user_id := 1, title := "Task", description := "",
                       due_date := none, priority := "normal", completed := false,
                       created_at := 9, note_id := none }],
           next_todo_id := 2 } }) :=
  ⟨by decide, by decide, by decide,
    by
      have h := c6_amended_priority_coerced wSys1 9 "s" 1 "Task" "" none "urgent"
        (by decide) (by decide) (by decide)
      simpa using h⟩

/-! ## Claim C9 -/

/-- Counterexample to C9 as stated: create_folder with a name that is
whitespace only (empty after trimming) is NOT rejected; the call succeeds
and a folder row with the empty name is stored by the access layer. -/
theorem c9_counterexample :
    (NoteDatabaseSystem.create_folder wSys1 9 "s" "   " none).1 = .ok 1 ∧
    (NoteDatabaseSystem.create_folder wSys1 9 "s" "   " none).2.db.folders =
      [{ id := 1, user_id := 1, name := "", parent_id := none, created_at := 9 }] := by
  constructor <;> rfl

/-- C9 (amended): every authenticated facade operation with a required
string input EXCEPT create_folder and link_note_to_folder trims the input
and rejects it with a validation failure, leaving the state untouched,
when it is empty after trimming (note title and content, todo title,
search query, tag batch via the note title check). create_folder trims
the folder name but performs no emptiness check, so the trimmed (possibly
empty) name reaches the access layer and a folder row is stored.
link_note_to_folder performs no trimming and no emptiness check at all:
the raw note title reaches the access-layer lookup, an empty or unmatched
title is reported as not-found only after that lookup, and a note whose
stored title equals the raw (untrimmed) string is linked. -/
theorem c9_amended_validation (st : SysState) (sid : String) (uid : Nat)
    (hv : NoteDatabaseSystem.validate_session st sid = some uid) :
    (∀ now title content, pyStrip title = "" ∨ pyStrip content = "" →
      NoteDatabaseSystem.create_note st now sid title content =
        (.err "Title and content are required", st)) ∧
    (∀ title, pyStrip title = "" →
      NoteDatabaseSystem.get_note st sid title = (.err "Title is required", st)) ∧
    (∀ now title content, pyStrip title = "" ∨ pyStrip content = "" →
      NoteDatabaseSystem.edit_note st now sid title content =
        (.err "Title and content are required", st)) ∧
    (∀ now t1 t2, pyStrip t1 = "" ∨ pyStrip t2 = "" →
      NoteDatabaseSystem.update_note_title st now sid t1 t2 =
        (.err "Both titles are required", st)) ∧
    (∀ title, pyStrip title = "" →
      NoteDatabaseSystem.delete_note st sid title = (.err "Title is required", st)) ∧
    (∀ q, pyStrip q = "" →
      NoteDatabaseSystem.search_notes st sid q = (.err "Search query is required", st)) ∧
    (∀ title ts, pyStrip title = "" →
      NoteDatabaseSystem.add_tags st sid title ts = (.err "Title is required", st)) ∧
    (∀ now title desc due prio ts nt, pyStrip title = "" →
      NoteDatabaseSystem.create_todo st now sid title desc due prio ts nt =
        (.err "Title is required", st)) ∧
    (st.db.next_folder_id ≠ 0 →
      ∀ now name, NoteDatabaseSystem.create_folder st now sid name none =
        (.ok st.db.next_folder_id,
         { st with db := { st.db with
             folders := st.db.folders ++
               [{ id := st.db.next_folder_id, user_id := uid, name := pyStrip name,
                  parent_id := none, created_at := now }],
             next_folder_id := st.db.next_folder_id + 1 } })) ∧
    (∀ nt fid, (∀ n ∈ st.db.notes, ¬(n.user_id = uid ∧ n.title = nt)) →
      NoteDatabaseSystem.link_note_to_folder st sid nt fid =
        (.err "Note or folder not found", st)) ∧
    (∀ nt fid n,
      st.db.notes.find? (fun r => decide (r.user_id = uid ∧ r.title = nt)) = some n →
      ¬((st.db.note_folders.any fun nf =>
          decide (nf.note_id = n.id ∧ nf.folder_id = fid)) = true) →
      NoteDatabaseSystem.link_note_to_folder st sid nt fid =
        (.ok (),
         { st with db := { st.db with
             note_folders := st.db.note_folders ++
               [{ note_id := n.id, folder_id := fid }] } })) := by
  refine ⟨?_, ?_, ?_, ?_, ?_, ?_, ?_, ?_, ?_, ?_, ?_⟩
  · intro now title content h
    unfold NoteDatabaseSystem.create_note NoteDatabaseSystem.withAuth
    rw [hv]
    dsimp only
    unfold NoteDatabaseSystem.create_note_body
    rw [if_pos h]
  · intro title h
    unfold NoteDatabaseSystem.get_note NoteDatabaseSystem.withAuth
    rw [hv]
    dsimp only
    unfold NoteDatabaseSystem.get_note_body
    rw [if_pos h]
  · intro now title content h
    unfold NoteDatabaseSystem.edit_note NoteDatabaseSystem.withAuth
    rw [hv]
    dsimp only
    unfold NoteDatabaseSystem.edit_note_body
    rw [if_pos h]
  · intro now t1 t2 h
    unfold NoteDatabaseSystem.update_note_title NoteDatabaseSystem.withAuth
    rw [hv]
    dsimp only
    unfold NoteDatabaseSystem.update_note_title_body
    rw [if_pos h]
  · intro title h
    unfold NoteDatabaseSystem.delete_note NoteDatabaseSystem.withAuth
    rw [hv]
    dsimp only
    unfold NoteDatabaseSystem.delete_note_body
    rw [if_pos h]
  · intro q h
    unfold NoteDatabaseSystem.search_notes NoteDatabaseSystem.withAuth
    rw [hv]
    dsimp only
    unfold NoteDatabaseSystem.search_notes_body
    rw [if_pos h]
  · intro title ts h
    unfold NoteDatabaseSystem.add_tags NoteDatabaseSystem.withAuth
    rw [hv]
    dsimp only
    unfold NoteDatabaseSystem.add_tags_body
    rw [if_pos h]
  · intro now title desc due prio ts nt h
    unfold NoteDatabaseSystem.create_todo NoteDatabaseSystem.withAuth
    rw [hv]
    dsimp only
    unfold NoteDatabaseSystem.create_todo_body
    rw [if_pos h]
  · intro hnz now name
    unfold NoteDatabaseSystem.create_folder NoteDatabaseSystem.withAuth
    rw [hv]
    dsimp only
    unfold NoteDatabaseSystem.create_folder_body NoteDatabase.create_folder
    dsimp only
    rw [if_neg (show ¬(false = true) by simp)]
    dsimp only
    rw [if_neg hnz]
  · intro nt fid hmiss
    unfold NoteDatabaseSystem.link_note_to_folder NoteDatabaseSystem.withAuth
    rw [hv]
    dsimp only
    unfold NoteDatabaseSystem.link_note_to_folder_body NoteDatabase.link_note_to_folder
    have hfn : st.db.notes.find? (fun r => decide (r.user_id = uid ∧ r.title = nt)) = none := by
      rw [List.find?_eq_none]
      intro n hn
      simpa using hmiss n hn
    rw [hfn]
    rfl
  · intro nt fid n hfind hnolink
    unfold NoteDatabaseSystem.link_note_to_folder NoteDatabaseSystem.withAuth
    rw [hv]
    dsimp only
    unfold NoteDatabaseSystem.link_note_to_folder_body NoteDatabase.link_note_to_folder
    rw [hfind]
    dsimp only
    rw [if_neg hnolink]
    rfl

/-- Witness for the amended C9 at a concrete state: an empty-after-trim
search query is refused, an empty-after-trim folder name is stored,
an empty note title reaches the link lookup and reports not-found after
it, and a raw (untrimmed) matching title is linked. -/
theorem c9_amended_witness :
    NoteDatabaseSystem.validate_session wSys1 "s" = some 1 ∧
    NoteDatabaseSystem.search_notes wSys1 "s" "   " = (.err "Search query is required", wSys1) ∧
    NoteDatabaseSystem.create_folder wSys1 9 "s" "   " none =
      (.ok 1,
       { wSys1 with db := { wSys1.db with
           folders := [{ id := 1, user_id := 1, name := "", parent_id := none,
                         created_at := 9 }],
           next_folder_id := 2 } }) ∧
    NoteDatabaseSystem.link_note_to_folder wSys1 "s" "" 1 =
      (.err "Note or folder not found", wSys1) ∧
    NoteDatabaseSystem.link_note_to_folder wSys1 "s" "N" 3 =
      (.ok (),
       { wSys1 with db := { wSys1.db with
           note_folders := [{ note_id := 1, folder_id := 3 }] } }) :=
  ⟨by decide,
    (c9_amended_validation wSys1 "s" 1 (by decide)).2.2.2.2.2.1 "   " (by decide),
    by
      have h := (c9_amended_validation wSys1 "s" 1 (by decide)).2.2.2.2.2.2.2.2.1
        (by decide) 9 "   "
      simpa using h,
    (c9_amended_validation wSys1 "s" 1 (by decide)).2.2.2.2.2.2.2.2.2.1 "" 1 (by decide),
    by
      have h := (c9_amended_validation wSys1 "s" 1 (by decide)).2.2.2.2.2.2.2.2.2.2
        "N" 3 wNote5 (by decide) (by decide)
      simpa using h⟩

/-! ## Claim C10 -/

/-- C10: credentials are whitespace insensitive and length checked after
trimming. If two passwords agree after trimming, with trimmed length at
least 3, then registering a fresh username with the first and logging in
with the second succeeds (the trimmed password is what is hashed and what
is verified, and the username is trimmed consistently on both paths); and
register rejects any password whose trimmed length is below 3 without
touching the credential store. -/
theorem c10_credentials_whitespace (st : SysState) (now : Nat) (tok username p1 p2 : String)
    (hu : ¬(pyStrip username = ""))
    (hfresh : ∀ u ∈ st.db.users, u.username ≠ pyStrip username)
    (hp : pyStrip p1 = pyStrip p2)
    (hlen : 3 ≤ (pyStrip p1).data.length) :
    (∃ st2, NoteDatabaseSystem.register_user st now username p1 = (.ok (), st2) ∧
      NoteDatabaseSystem.login_user st2 tok username p2 =
        (.ok tok,
         { st2 with active_sessions := (tok, pyStrip username) :: st2.active_sessions })) ∧
    (∀ q, (pyStrip q).data.length < 3 →
      ∃ msg, NoteDatabaseSystem.register_user st now username q = (.err msg, st)) := by
  have hstrip_empty : pyStrip "" = "" := rfl
  have hps1 : ¬(pyStrip p1 = "") := by
    intro h
    rw [h] at hlen
    exact absurd hlen (by decide)
  have hp1ne : ¬(p1 = "") := by
    intro h
    rw [h, hstrip_empty] at hlen
    exact absurd hlen (by decide)
  have hps2 : ¬(pyStrip p2 = "") := by
    rw [← hp]
    exact hps1
  have hp2ne : ¬(p2 = "") := by
    intro h
    rw [h] at hps2
    exact hps2 hstrip_empty
  constructor
  · have hany : ¬((st.db.users.any fun u => decide (u.username = pyStrip username)) = true) := by
      rw [List.any_eq_false.mpr]
      · simp
      · intro u hu2
        simpa using hfresh u hu2
    have hcreate : NoteDatabase.create_user st.db now (pyStrip username) (pyStrip p1) =
        (true, { st.db with
          users := st.db.users ++
            [{ id := st.db.next_user_id, username := pyStrip username,
               password_hash := hashPassword (pyStrip p1), created_at := now }],
          next_user_id := st.db.next_user_id + 1 }) := by
      unfold NoteDatabase.create_user
      rw [if_neg hany]
    have hverify : NoteDatabase.verify_user
        { st.db with
          users := st.db.users ++
            [{ id := st.db.next_user_id, username := pyStrip username,
               password_hash := hashPassword (pyStrip p1), created_at := now }],
          next_user_id := st.db.next_user_id + 1 }
        (pyStrip username) (pyStrip p2) = true := by
      unfold NoteDatabase.verify_user
      have hfnone : st.db.users.find?
          (fun u => decide (u.username = pyStrip username)) = none := by
        rw [List.find?_eq_none]
        intro u hu2
        simpa using hfresh u hu2
      rw [show ({ st.db with
          users := st.db.users ++
            [{ id := st.db.next_user_id, username := pyStrip username,
               password_hash := hashPassword (pyStrip p1), created_at := now }],
          next_user_id := st.db.next_user_id + 1 } : DB).users = st.db.users ++
            [{ id := st.db.next_user_id, username := pyStrip username,
               password_hash := hashPassword (pyStrip p1), created_at := now }] from rfl]
      rw [List.find?_append, hfnone]
      simp [verifyPassword, hashPassword, hp]
    refine ⟨{ st with db := { st.db with
        users := st.db.users ++
          [{ id := st.db.next_user_id, username := pyStrip username,
             password_hash := hashPassword (pyStrip p1), created_at := now }],
        next_user_id := st.db.next_user_id + 1 } }, ?_, ?_⟩
    · unfold NoteDatabaseSystem.register_user
      rw [if_neg hu, if_neg hp1ne, if_neg hps1, if_neg (by omega)]
      dsimp only
      rw [hcreate]
      rfl
    · unfold NoteDatabaseSystem.login_user
      rw [if_neg hu, if_neg hp2ne, if_neg hps2]
      rw [if_pos hverify]
  · intro q hq
    by_cases h0 : q = ""
    · refine ⟨"Password is required and cannot be empty", ?_⟩
      unfold NoteDatabaseSystem.register_user
      rw [if_neg hu, if_pos h0]
    · by_cases h1 : pyStrip q = ""
      · refine ⟨"Password cannot be only whitespace", ?_⟩
        unfold NoteDatabaseSystem.register_user
        rw [if_neg hu, if_neg h0, if_pos h1]
      · refine ⟨"Password must be at least 3 characters long", ?_⟩
        unfold NoteDatabaseSystem.register_user
        rw [if_neg hu, if_neg h0, if_neg h1, if_pos hq]

/-- Witness for C10 at a concrete state and credentials. -/
theorem c10_witness :
    ¬(pyStrip " bob " = "") ∧ (pyStrip " pw1 " = pyStrip "pw1") ∧
    (3 ≤ (pyStrip " pw1 ").data.length) ∧
    ∃ st2, NoteDatabaseSystem.register_user wSys0 4 " bob " " pw1 " = (.ok (), st2) ∧
      NoteDatabaseSystem.login_user st2 "t2" " bob " "pw1" =
        (.ok "t2", { st2 with active_sessions := ("t2", pyStrip " bob ") :: st2.active_sessions }) :=
  ⟨by decide, by decide, by decide,
    (c10_credentials_whitespace wSys0 4 "t2" " bob " " pw1 " "pw1" (by decide) (by decide)
      (by decide) (by decide)).1⟩
